import Mathlib

/-!
Verification development for the THOR Health backend.

The ingestion pipeline, the readiness scorer and the two weekly-report
calculators are shallowly embedded over exact rational arithmetic: a JS
number that is guaranteed finite is a rational, NaN is modelled explicitly
where it is reachable, JS null/undefined is `Option.none`, and
`Math.round` is Mathlib's `round` (both round halves toward positive
infinity).
-/

namespace Readiness

/-- Math.min on two rationals, written with ite so that the kernel can
evaluate it. -/
def qmin (a b : ℚ) : ℚ := if a ≤ b then a else b

/-- Math.max on two rationals, written with ite so that the kernel can
evaluate it. -/
def qmax (a b : ℚ) : ℚ := if b ≤ a then a else b

/-- Math.abs on a rational. -/
def qabs (q : ℚ) : ℚ := if q < 0 then -q else q

/-- The clamp helper of api/readinessCalc.js. Its Number.isFinite guard
cannot fire in this embedding because every value is an exact rational. -/
def clamp (n mn mx : ℚ) : ℚ := qmax mn (qmin mx n)

/-- One daily_health_summary row as consumed by computeReadiness. Each
field holds the result of the source's toNum: some q for a finite numeric
value, none when the raw field was null, undefined or not numeric. -/
structure DayRow where
  date : Option String := none
  sleep_duration_minutes : Option ℚ := none
  sleep_deep_minutes : Option ℚ := none
  sleep_rem_minutes : Option ℚ := none
  sleep_core_minutes : Option ℚ := none
  sleep_awake_minutes : Option ℚ := none
  hrv : Option ℚ := none
  resting_hr : Option ℚ := none
  steps : Option ℚ := none
  active_calories : Option ℚ := none
deriving DecidableEq

/-- The opts argument of computeReadiness with its default values. -/
structure Opts where
  sleepTargetMinutes : ℚ := 480
  hrvGoodMs : ℚ := 60
  hrvLowMs : ℚ := 20
  restingHrGood : ℚ := 55
  restingHrHigh : ℚ := 85
deriving DecidableEq

/-- JS truthiness of a number-or-null field: null, undefined and 0 are
falsy, every other number is truthy. -/
def numTruthy : Option ℚ → Bool
  | some q => decide (q ≠ 0)
  | none => false

/-- The pattern x && x > 0 used on minute fields. -/
def posTruthy : Option ℚ → Bool
  | some q => decide (q ≠ 0) && decide (0 < q)
  | none => false

/-- The hasStages test of computeReadiness. -/
def hasStages (r : DayRow) : Bool :=
  posTruthy r.sleep_deep_minutes || posTruthy r.sleep_rem_minutes ||
    posTruthy r.sleep_core_minutes || posTruthy r.sleep_awake_minutes

/-- The pattern x ? x / denom : 0 used for the stage ratios. -/
def pctOr0 (part : Option ℚ) (denom : ℚ) : ℚ :=
  match part with
  | some p => if p ≠ 0 then p / denom else 0
  | none => 0

/-- The sleep subscore of computeReadiness. -/
def sleepScoreOf (o : Opts) (r : DayRow) : Option ℚ :=
  match r.sleep_duration_minutes with
  | none => none
  | some sm =>
    if sm ≠ 0 ∧ 0 < sm then
      let base := clamp ((round (sm / o.sleepTargetMinutes * 100) : ℤ) : ℚ) 0 100
      if hasStages r ∧ 0 < sm then
        let deepPct := pctOr0 r.sleep_deep_minutes sm
        let remPct := pctOr0 r.sleep_rem_minutes sm
        let awakePct : ℚ :=
          match r.sleep_awake_minutes with
          | some a => if a ≠ 0 then a / (sm + a) else 0
          | none => 0
        let stageAdj :=
          (if 0 < deepPct ∧ deepPct < 0.08 then (-5 : ℚ) else 0) +
          (if 0.30 < deepPct then -3 else 0) +
          (if 0 < remPct ∧ remPct < 0.12 then -4 else 0) +
          (if 0.12 < awakePct then -5 else 0)
        some (clamp (base + stageAdj) 0 100)
      else
        some base
    else none

/-- The HRV subscore of computeReadiness. -/
def hrvScoreOf (o : Opts) (r : DayRow) : Option ℚ :=
  match r.hrv with
  | none => none
  | some h =>
    if h ≠ 0 then
      some (clamp ((round ((h - o.hrvLowMs) / (o.hrvGoodMs - o.hrvLowMs) * 100) : ℤ) : ℚ) 0 100)
    else none

/-- The resting heart rate subscore of computeReadiness. -/
def rhrScoreOf (o : Opts) (r : DayRow) : Option ℚ :=
  match r.resting_hr with
  | none => none
  | some rh =>
    if rh ≠ 0 then
      some (clamp ((round ((o.restingHrHigh - rh) / (o.restingHrHigh - o.restingHrGood) * 100) : ℤ) : ℚ) 0 100)
    else none

/-- The recovery proxy subscore of computeReadiness. -/
def recoveryScoreOf (r : DayRow) : Option ℚ :=
  if r.steps.isSome || r.active_calories.isSome then
    let s := r.steps.getD 0
    let c := r.active_calories.getD 0
    let load := s / 8000 + c / 500
    let deviation := qabs (load - 1)
    some (clamp ((round (100 - deviation * 50) : ℤ) : ℚ) 0 100)
  else none

/-- The missing list built by computeReadiness, in source push order. -/
def missingOf (r : DayRow) : List String :=
  (if posTruthy r.sleep_duration_minutes then [] else ["sleep"]) ++
  (if numTruthy r.hrv then [] else ["hrv"]) ++
  (if numTruthy r.resting_hr then [] else ["resting_hr"]) ++
  (if r.steps.isSome then [] else ["steps"]) ++
  (if r.active_calories.isSome then [] else ["active_calories"])

/-- The tips list built by computeReadiness, in source push order. -/
def tipsOf (o : Opts) (r : DayRow) : List String :=
  (match r.sleep_duration_minutes with
   | some sm =>
     if sm ≠ 0 ∧ 0 < sm then
       if sm < 6 * 60 then
         ["Sleep was under 6 hours. A longer night will boost readiness most."]
       else []
     else ["Sleep data not synced for this day."]
   | none => ["Sleep data not synced for this day."]) ++
  (match r.hrv with
   | some h =>
     if h ≠ 0 then
       if h < o.hrvLowMs then
         ["HRV is low vs baseline range. Consider lighter training and more recovery."]
       else []
     else ["HRV data not synced for this day."]
   | none => ["HRV data not synced for this day."]) ++
  (match r.resting_hr with
   | some rh =>
     if rh ≠ 0 then
       if o.restingHrHigh ≤ rh then
         ["Resting HR is elevated. That often correlates with stress/poor recovery."]
       else []
     else ["Resting HR data not synced for this day."]
   | none => ["Resting HR data not synced for this day."]) ++
  (if r.steps.isSome || r.active_calories.isSome then
     if 2 < r.steps.getD 0 / 8000 + r.active_calories.getD 0 / 500 then
       ["High activity load. Keep volume controlled if recovery signals are mediocre."]
     else []
   else ["Activity data not synced for this day."])

/-- The subscores object of a ReadinessResult. -/
structure Subscores where
  sleep : Option ℚ
  hrv : Option ℚ
  resting_hr : Option ℚ
  recovery : Option ℚ
  subjective : ℚ
deriving DecidableEq

/-- A ReadinessResult. The presentation-only message, weights and used
echo fields of the source object are omitted; subscores is none for the
empty object returned on null input. -/
structure Result where
  date : Option String
  total : Option ℚ
  status : String
  subscores : Option Subscores
  missing : List String
  tips : List String
  recommendation : Option String
deriving DecidableEq

/-- The recommendation text thresholds of computeReadiness. -/
def recOf (total : Option ℚ) : String :=
  match total with
  | none => "Awaiting sync"
  | some t =>
    if 85 ≤ t then "Readiness is high. You can push intensity today—still warm up properly."
    else if 70 ≤ t then "Readiness is moderate. One main heavy lift, keep volume controlled, prioritize sleep tonight."
    else if 50 ≤ t then "Readiness is low-moderate. Prefer technique work, easy cardio, and recovery."
    else "Readiness is low. Focus on rest, hydration, and sleep—avoid hard training."

/-- The computeReadiness function of api/readinessCalc.js. -/
def computeReadiness (dayRow : Option DayRow) (o : Opts) : Result :=
  match dayRow with
  | none =>
    { date := none
      total := none
      status := "awaiting_sync"
      subscores := none
      missing := ["sleep", "hrv", "resting_hr", "steps", "active_calories"]
      tips := ["No daily row found for this date."]
      recommendation := none }
  | some r =>
    let sleepScore := sleepScoreOf o r
    let hrvScore := hrvScoreOf o r
    let rhrScore := rhrScoreOf o r
    let recoveryScore := recoveryScoreOf r
    let subjectiveScore : ℚ := 50
    let coreNull :=
      sleepScore.isNone || hrvScore.isNone || rhrScore.isNone || recoveryScore.isNone
    let total : Option ℚ :=
      if coreNull then none
      else
        some (clamp ((round (sleepScore.getD 0 * 0.30 + hrvScore.getD 0 * 0.25 +
          rhrScore.getD 0 * 0.20 + recoveryScore.getD 0 * 0.15 +
          subjectiveScore * 0.10) : ℤ) : ℚ) 0 100)
    { date := r.date
      total := total
      status := if total.isNone then "awaiting_sync" else "ok"
      subscores := some
        { sleep := sleepScore, hrv := hrvScore, resting_hr := rhrScore
          recovery := recoveryScore, subjective := subjectiveScore }
      missing := missingOf r
      tips := tipsOf o r
      recommendation := some (recOf total) }

/-- The concrete row of spec section 8's readiness example: a full night of
sleep at the goal, HRV and resting HR at their good references, 8000 steps
and 500 active calories, no stage minutes. -/
def exampleRow : DayRow :=
  { date := some "2026-01-05"
    sleep_duration_minutes := some 480
    hrv := some 60
    resting_hr := some 55
    steps := some 8000
    active_calories := some 500 }

end Readiness

/-- The regex test of a ten character YYYY-MM-DD shape used by both the
ingestion handler and the weekly calculator. -/
def ymdShape (s : String) : Bool :=
  match s.data with
  | [a, b, c, d, e, f, g, h, i, j] =>
    a.isDigit && b.isDigit && c.isDigit && d.isDigit && (e == '-') &&
      f.isDigit && g.isDigit && (h == '-') && i.isDigit && j.isDigit
  | _ => false

/-- JS substring containment, s.includes(pat). -/
def strIncludes (s pat : String) : Bool :=
  s.data.tails.any (fun t => pat.data.isPrefixOf t)

/-- Lexicographic character-code comparison of two char lists. -/
def charsLt : List Char → List Char → Bool
  | [], [] => false
  | [], _ :: _ => true
  | _ :: _, [] => false
  | x :: xs, y :: ys => if x < y then true else if y < x then false else charsLt xs ys

/-- The JS < comparison on strings: lexicographic by character code. -/
def strLt (a b : String) : Bool := charsLt a.data b.data

namespace Ingest

/-- A JSON-borne JS value as it can appear in a sample field: null or
undefined, a finite number, or a string. A string carries its content and
its JS Number() coercion as data (none meaning NaN). -/
inductive JSVal where
  | vnull : JSVal
  | vnum : ℚ → JSVal
  | vstr : String → Option ℚ → JSVal
deriving DecidableEq

/-- JS Number() of a value; none models NaN. -/
def jsNumber : JSVal → Option ℚ
  | .vnull => some 0
  | .vnum q => some q
  | .vstr _ n => n

/-- JS truthiness of a value. -/
def jsTruthy : JSVal → Bool
  | .vnull => false
  | .vnum q => decide (q ≠ 0)
  | .vstr s _ => decide (s ≠ "")

/-- The typeof v === "number" test used for the sleep summary shape. -/
def isNumberType : JSVal → Bool
  | .vnum _ => true
  | _ => false

/-- A date-bearing string field of a sample. The raw text is carried
together with two attributes of it that the embedding does not recompute:
the UTC calendar date new Date(raw) would render (none for an invalid
date) and the epoch-millisecond value of new Date(raw) (none likewise). -/
structure TS where
  raw : String
  utc : Option String := none
  epochMs : Option ℚ := none
deriving DecidableEq

/-- A truthiness filter on an optional date string: an absent field and an
empty string are both falsy in the source's || chains. -/
def tsTruthy : Option TS → Option TS
  | some t => if t.raw = "" then none else some t
  | none => none

/-- One data point of a metric series. startTs models d.start followed by
d.startDate, endTs models d.end followed by d.endDate. -/
structure Sample where
  date : Option TS := none
  startTs : Option TS := none
  endTs : Option TS := none
  qty : JSVal := .vnull
  avg : JSVal := .vnull
  value : JSVal := .vnull
  min : JSVal := .vnull
  max : JSVal := .vnull
  totalSleep : JSVal := .vnull
  deep : JSVal := .vnull
  rem : JSVal := .vnull
  core : JSVal := .vnull
  awake : JSVal := .vnull
deriving DecidableEq

/-- One named metric series of the payload. An absent name is the empty
string, as in the source's (metric.name || ""). -/
structure Metric where
  name : String
  data : List Sample
deriving DecidableEq

/-- The dateStr chain d.date || d.end || d.endDate || d.start ||
d.startDate. -/
def dateStrOf (d : Sample) : Option TS :=
  match tsTruthy d.date with
  | some t => some t
  | none =>
    match tsTruthy d.endTs with
    | some t => some t
    | none => tsTruthy d.startTs

/-- The day resolution of ensureDay: the first ten characters of the
trimmed string when they match YYYY-MM-DD, else the UTC calendar date of
the parsed timestamp, else none (sample skipped). -/
def dayKeyOfTS (t : TS) : Option String :=
  if ymdShape (t.raw.trim.take 10) then some (t.raw.trim.take 10) else t.utc

/-- The bucket day of a sample, or none when it must be skipped. -/
def dayKeyOf (d : Sample) : Option String :=
  match dateStrOf d with
  | some t => dayKeyOfTS t
  | none => none

/-- A numeric field of an in-progress day row: null, NaN, or a finite
number. -/
inductive JNum where
  | null : JNum
  | nan : JNum
  | num : ℚ → JNum
deriving DecidableEq

/-- Assignment of a JS Number() result to a row field. -/
def jnumOfOpt : Option ℚ → JNum
  | some q => .num q
  | none => .nan

/-- JS ToNumber of a row field when it enters arithmetic: null coerces to
zero, NaN stays NaN. -/
def toNumber : JNum → Option ℚ
  | .null => some 0
  | .nan => none
  | .num q => some q

/-- The += of the source: NaN on either side poisons the sum. -/
def jAdd (a : JNum) (b : Option ℚ) : JNum :=
  match toNumber a, b with
  | some x, some y => .num (x + y)
  | _, _ => .nan

/-- The x || 0 coercion applied by the sanitize step. -/
def orZero : JNum → ℚ
  | .num q => q
  | _ => 0

/-- One in-progress daily_health_summary row, with the defaults installed
by ensureDay. -/
structure Row where
  user_id : String
  date : String
  resting_hr : JNum := .null
  hrv : JNum := .null
  sleep_duration_minutes : JNum := .num 0
  sleep_deep_minutes : JNum := .num 0
  sleep_rem_minutes : JNum := .num 0
  sleep_core_minutes : JNum := .num 0
  sleep_awake_minutes : JNum := .num 0
  systolic : JNum := .null
  diastolic : JNum := .null
  weight : JNum := .null
  body_fat_percentage : JNum := .null
  glucose : JNum := .null
  steps : JNum := .num 0
  active_calories : JNum := .num 0
  basal_calories : JNum := .num 0
deriving DecidableEq

/-- A fresh row as created by ensureDay. -/
def newRow (uid day : String) : Row := { user_id := uid, date := day }

/-- The summary object keyed by day, in insertion order. -/
abbrev St := List (String × Row)

/-- Lookup of summary[day]. -/
def getRow : St → String → Option Row
  | [], _ => none
  | (k, r) :: rest, day => if k = day then some r else getRow rest day

/-- Replacement of summary[day] (first matching key), appending when the
key is new. -/
def setRow : St → String → Row → St
  | [], day, r => [(day, r)]
  | (k, r0) :: rest, day, r =>
    if k = day then (day, r) :: rest else (k, r0) :: setRow rest day r

/-- The ensureDay helper: fetches the existing row for the day or creates
a default one at the end of the object. -/
def ensureDay (uid : String) (st : St) (day : String) : St × Row :=
  match getRow st day with
  | some r => (st, r)
  | none => (st ++ [(day, newRow uid day)], newRow uid day)

/-- The known metric names list of the handler. -/
def knownNames : List String :=
  ["resting_heart_rate",
   "heart_rate_variability_sdnn",
   "heart_rate_variability",
   "step_count",
   "sleep_analysis",
   "active_energy_burned",
   "active_energy",
   "basal_energy_burned",
   "body_mass",
   "weight_body_mass",
   "body_fat_percentage",
   "blood_glucose",
   "blood_pressure_systolic",
   "blood_pressure_diastolic"]

/-- The isKnown test: the lowercased name equals or contains a known
token. A false result is only logged; processing continues. -/
def isKnownMetric (rawName : String) : Bool :=
  let name := rawName.toLower
  knownNames.any (fun k => name == k || strIncludes name k)

/-- The summary-shape detector: any of the five hour-total fields is
number-typed. -/
def hasSummaryHours (d : Sample) : Bool :=
  isNumberType d.totalSleep || isNumberType d.deep || isNumberType d.rem ||
    isNumberType d.core || isNumberType d.awake

/-- Math.round((Number(v) || 0) * 60), the hour-to-minute conversion of a
summary field. -/
def summaryMinutes (v : JSVal) : ℚ :=
  ((round (((jsNumber v).getD 0) * 60) : ℤ) : ℚ)

/-- The summary-shape overwrite of all five sleep fields. -/
def applySummary (d : Sample) (r : Row) : Row :=
  { r with
    sleep_duration_minutes := .num (summaryMinutes d.totalSleep)
    sleep_deep_minutes := .num (summaryMinutes d.deep)
    sleep_rem_minutes := .num (summaryMinutes d.rem)
    sleep_core_minutes := .num (summaryMinutes d.core)
    sleep_awake_minutes := .num (summaryMinutes d.awake) }

/-- The segment duration (end - start) / 60000 in minutes, none when
either timestamp is absent or invalid. -/
def segMinutes (d : Sample) : Option ℚ :=
  match tsTruthy d.startTs, tsTruthy d.endTs with
  | some s, some e =>
    match s.epochMs, e.epochMs with
    | some a, some b => some ((b - a) / 60000)
    | _, _ => none
  | _, _ => none

/-- The String(stage) content when the stage value is a string. A number
or null renders as digits or "null" and can never equal the stage names
compared against. -/
def stageStr : JSVal → Option String
  | .vstr s _ => some s
  | _ => none

/-- The segment-shape update: the duration joins the total and, per the
stage conditional chain, exactly one stage bucket (or none for an
unrecognized stage). -/
def segUpdate (d : Sample) (m : ℚ) (r : Row) : Row :=
  let r := { r with sleep_duration_minutes := jAdd r.sleep_duration_minutes (some m) }
  let stage := d.value
  if stage == .vnum 0 || (stageStr stage).map String.toLower == some "awake" then
    { r with sleep_awake_minutes := jAdd r.sleep_awake_minutes (some m) }
  else if stage == .vnum 3 || stageStr stage == some "Deep" then
    { r with sleep_deep_minutes := jAdd r.sleep_deep_minutes (some m) }
  else if stage == .vnum 4 || stageStr stage == some "REM" then
    { r with sleep_rem_minutes := jAdd r.sleep_rem_minutes (some m) }
  else if stage == .vnum 2 || stage == .vnum 1 then
    { r with sleep_core_minutes := jAdd r.sleep_core_minutes (some m) }
  else r

/-- The ?? chain d.qty ?? d.avg ?? d.value ?? d.min ?? d.max. -/
def nvl (a b : JSVal) : JSVal :=
  match a with
  | .vnull => b
  | v => v

/-- The value == null skip test after the fallback chain. -/
def nullToNone (v : JSVal) : Option JSVal :=
  match v with
  | .vnull => none
  | v => some v

/-- The extracted value of a non-sleep sample, none when every fallback
field is null so the sample is skipped. -/
def pickValue (d : Sample) : Option JSVal :=
  nullToNone (nvl d.qty (nvl d.avg (nvl d.value (nvl d.min d.max))))

/-- Number(value || 0), the coercion used by the summing updates. -/
def numOrZero (v : JSVal) : Option ℚ :=
  if jsTruthy v then jsNumber v else some 0

/-- The nine independent non-sleep field conditionals of the merge loop,
applied in source order to the lowercased metric name. -/
def applyNonSleep (name : String) (v : JSVal) (r : Row) : Row :=
  let r := if strIncludes name "resting_heart_rate" then
    { r with resting_hr := jnumOfOpt (jsNumber v) } else r
  let r := if strIncludes name "heart_rate_variability_sdnn" || name == "heart_rate_variability" then
    { r with hrv := jnumOfOpt (jsNumber v) } else r
  let r := if strIncludes name "step_count" then
    { r with steps := jAdd r.steps (numOrZero v) } else r
  let r := if strIncludes name "active_energy_burned" || name == "active_energy" then
    { r with active_calories := jAdd r.active_calories (numOrZero v) } else r
  let r := if strIncludes name "basal_energy_burned" then
    { r with basal_calories := jAdd r.basal_calories (numOrZero v) } else r
  let r := if strIncludes name "body_mass" || strIncludes name "weight_body_mass" then
    { r with weight := jnumOfOpt (jsNumber v) } else r
  let r := if strIncludes name "body_fat_percentage" then
    { r with body_fat_percentage := jnumOfOpt (jsNumber v) } else r
  let r := if strIncludes name "blood_glucose" then
    { r with glucose := jnumOfOpt (jsNumber v) } else r
  let r := if strIncludes name "blood_pressure_systolic" then
    { r with systolic := jnumOfOpt (jsNumber v) } else r
  if strIncludes name "blood_pressure_diastolic" then
    { r with diastolic := jnumOfOpt (jsNumber v) } else r

/-- Processing of one data point against the summary object. The name
argument is the already lowercased metric name. -/
def processSample (uid name : String) (st : St) (d : Sample) : St :=
  match dateStrOf d with
  | none => st
  | some _ =>
    if strIncludes name "sleep_analysis" then
      match dayKeyOf d with
      | none => st
      | some day =>
        let p := ensureDay uid st day
        if hasSummaryHours d then
          setRow p.1 day (applySummary d p.2)
        else
          match segMinutes d with
          | none => p.1
          | some m => if 0 < m then setRow p.1 day (segUpdate d m p.2) else p.1
    else
      match dayKeyOf d with
      | none => st
      | some day =>
        let p := ensureDay uid st day
        match pickValue d with
        | none => p.1
        | some v => setRow p.1 day (applyNonSleep name v p.2)

/-- Processing of one metric: the name is lowercased once and every data
point is folded through processSample. -/
def processMetric (uid : String) (st : St) (m : Metric) : St :=
  m.data.foldl (processSample uid m.name.toLower) st

/-- The integer-safe sanitize map applied to every finished row. -/
def sanitize (r : Row) : Row :=
  { r with
    steps := .num ((round (orZero r.steps) : ℤ) : ℚ)
    active_calories := .num ((round (orZero r.active_calories) : ℤ) : ℚ)
    basal_calories := .num ((round (orZero r.basal_calories) : ℤ) : ℚ)
    sleep_duration_minutes := .num ((round (orZero r.sleep_duration_minutes) : ℤ) : ℚ)
    sleep_deep_minutes := .num ((round (orZero r.sleep_deep_minutes) : ℤ) : ℚ)
    sleep_rem_minutes := .num ((round (orZero r.sleep_rem_minutes) : ℤ) : ℚ)
    sleep_core_minutes := .num ((round (orZero r.sleep_core_minutes) : ℤ) : ℚ)
    sleep_awake_minutes := .num ((round (orZero r.sleep_awake_minutes) : ℤ) : ℚ) }

/-- The pure core of the POST /api/health-data handler: the per-day merge
loop followed by the sanitize map, in object insertion order. -/
def buildRows (uid : String) (metrics : List Metric) : List Row :=
  ((metrics.foldl (processMetric uid) []).map Prod.snd).map sanitize

/-- The four sleep stage buckets of a day row. -/
inductive Stage where
  | awake : Stage
  | core : Stage
  | deep : Stage
  | rem : Stage
deriving DecidableEq

/-- The stage classification realized by the conditional chain of
segUpdate: 0 or "awake" (any casing) to awake, 3 or "Deep" to deep, 4 or
"REM" to rem, 1 or 2 to core, anything else unclassified. -/
def stageOf (v : JSVal) : Option Stage :=
  if v == .vnum 0 || (stageStr v).map String.toLower == some "awake" then some .awake
  else if v == .vnum 3 || stageStr v == some "Deep" then some .deep
  else if v == .vnum 4 || stageStr v == some "REM" then some .rem
  else if v == .vnum 2 || v == .vnum 1 then some .core
  else none

/-- The bucket field of a row selected by a stage. -/
def bucketOf (b : Stage) (r : Row) : JNum :=
  match b with
  | .awake => r.sleep_awake_minutes
  | .core => r.sleep_core_minutes
  | .deep => r.sleep_deep_minutes
  | .rem => r.sleep_rem_minutes

/-- A sample value that is null or a non-negative finite number: the
restriction under which the sanitization invariant of the pipeline
holds. -/
def GoodVal (v : JSVal) : Prop :=
  match v with
  | .vnull => True
  | .vnum q => 0 ≤ q
  | .vstr _ _ => False

/-- A timestamp attribute rendering a non-empty UTC date when valid. -/
def GoodTS : Option TS → Prop
  | some t => ∀ u, t.utc = some u → u ≠ ""
  | none => True

/-- A sample whose value-bearing fields are null or non-negative finite
numbers and whose timestamps render non-empty UTC dates. -/
def GoodSample (d : Sample) : Prop :=
  GoodVal d.qty ∧ GoodVal d.avg ∧ GoodVal d.value ∧ GoodVal d.min ∧ GoodVal d.max ∧
  GoodVal d.totalSleep ∧ GoodVal d.deep ∧ GoodVal d.rem ∧ GoodVal d.core ∧ GoodVal d.awake ∧
  GoodTS d.date ∧ GoodTS d.startTs ∧ GoodTS d.endTs

/-- A row field that is not NaN. -/
def NotNaN (x : JNum) : Prop := x ≠ .nan

/-- A row field holding a non-negative finite number. -/
def NonnegNum (x : JNum) : Prop := ∃ q : ℚ, x = .num q ∧ 0 ≤ q

/-- The field invariant of an in-progress or finished row: point-in-time
fields are null or finite, accumulating fields are non-negative finite
numbers. -/
def RowInv (r : Row) : Prop :=
  NotNaN r.resting_hr ∧ NotNaN r.hrv ∧ NotNaN r.systolic ∧ NotNaN r.diastolic ∧
  NotNaN r.weight ∧ NotNaN r.body_fat_percentage ∧ NotNaN r.glucose ∧
  NonnegNum r.sleep_duration_minutes ∧ NonnegNum r.sleep_deep_minutes ∧
  NonnegNum r.sleep_rem_minutes ∧ NonnegNum r.sleep_core_minutes ∧
  NonnegNum r.sleep_awake_minutes ∧ NonnegNum r.steps ∧ NonnegNum r.active_calories ∧
  NonnegNum r.basal_calories

/-- The summary-object invariant: every entry is keyed by its row's
non-empty date, carries the request's user id, and satisfies the field
invariant. -/
def StInv (uid : String) (st : St) : Prop :=
  ∀ p ∈ st, (p : String × Row).2.user_id = uid ∧ p.2.date = p.1 ∧ p.1 ≠ "" ∧ RowInv p.2

/-- The key part of the summary-object invariant alone: every entry is
keyed by its row's date and carries the request's user id. It holds for
arbitrary payloads. -/
def StKeys (uid : String) (st : St) : Prop :=
  ∀ p ∈ st, (p : String × Row).2.user_id = uid ∧ p.2.date = p.1

/-- A row field holding a non-negative integer value. -/
def IntNonneg (x : JNum) : Prop := ∃ n : ℤ, x = .num (n : ℚ) ∧ 0 ≤ n

/-- The invariant of a finalized, sanitized row: the (user_id, date) key
is the request's user and a non-empty date, point-in-time fields are null
or finite (never NaN), and every accumulating field is a non-negative
integer. -/
def FinalRowOk (uid : String) (r : Row) : Prop :=
  r.user_id = uid ∧ r.date ≠ "" ∧
  NotNaN r.resting_hr ∧ NotNaN r.hrv ∧ NotNaN r.systolic ∧ NotNaN r.diastolic ∧
  NotNaN r.weight ∧ NotNaN r.body_fat_percentage ∧ NotNaN r.glucose ∧
  IntNonneg r.sleep_duration_minutes ∧ IntNonneg r.sleep_deep_minutes ∧
  IntNonneg r.sleep_rem_minutes ∧ IntNonneg r.sleep_core_minutes ∧
  IntNonneg r.sleep_awake_minutes ∧ IntNonneg r.steps ∧ IntNonneg r.active_calories ∧
  IntNonneg r.basal_calories

/-- A date-bearing field whose raw text already is the day, with no
parse attributes needed. -/
def ts0 (s : String) : TS := { raw := s }

/-- A timestamp with an epoch-millisecond attribute, as a parseable
segment boundary carries. -/
def segTs (s : String) (ms : ℚ) : TS := { raw := s, epochMs := some ms }

/-- The summary-shape sleep sample of the spec example: totalSleep = 7.5
hours on 2026-01-05. -/
def summarySample : Sample := { date := some (ts0 "2026-01-05"), totalSleep := .vnum 7.5 }

/-- A sleep segment on 2026-01-05 between two epoch milliseconds carrying
a stage value. -/
def mkSeg (a b : ℚ) (v : JSVal) : Sample :=
  { startTs := some (segTs "2026-01-05 22:00:00" a)
    endTs := some (segTs "2026-01-05 23:00:00" b)
    value := v }

/-- A one hour deep-sleep segment on 2026-01-05. -/
def segDeep60 : Sample := mkSeg 0 3600000 (.vnum 3)

/-- The sleep_analysis metric holding the given data points. -/
def sleepMetric (data : List Sample) : Metric := { name := "sleep_analysis", data := data }

/-- The eight hour night of spec section 8: 1h deep, 2h rem, 4h core
(stage 1), 1h awake (string stage). -/
def eightHourNight : List Sample :=
  [mkSeg 0 3600000 (.vnum 3),
   mkSeg 3600000 10800000 (.vnum 4),
   mkSeg 10800000 25200000 (.vnum 1),
   mkSeg 25200000 28800000 (.vstr "awake" none)]

/-- An HRV sample under the camel-case vendor name of the spec example. -/
def sdnnMetric : Metric :=
  { name := "HeartRateVariabilitySDNN"
    data := [{ date := some (ts0 "2026-01-05"), qty := .vnum 61 }] }

/-- A resting heart rate sample whose qty is a non-numeric string. -/
def nanQtyMetric : Metric :=
  { name := "resting_heart_rate"
    data := [{ date := some (ts0 "2026-01-05"), qty := .vstr "abc" none }] }

/-- A body temperature sample, an unknown metric name. -/
def bodyTempMetric : Metric :=
  { name := "body_temperature"
    data := [{ date := some (ts0 "2026-01-05"), qty := .vnum 37 }] }

/-- A step count sample of 250 steps, a good payload. -/
def stepsMetric : Metric :=
  { name := "step_count"
    data := [{ date := some (ts0 "2026-01-05"), qty := .vnum 250 }] }

end Ingest

namespace JsDate

/-- Day count since the epoch for a proleptic Gregorian date with the
month already normalized to 1..12; the day may lie outside the month and
extends linearly, exactly as the JS Date model does. -/
def civilDays (y m d : ℤ) : ℤ :=
  let y2 := if m ≤ 2 then y - 1 else y
  let era := y2 / 400
  let yoe := y2 - era * 400
  let mp := if 2 < m then m - 3 else m + 9
  let doy := (153 * mp + 2) / 5 + d - 1
  let doe := yoe * 365 + yoe / 4 - yoe / 100 + doy
  era * 146097 + doe - 719468

/-- Day count for a 1-based month that may lie outside 1..12, rolling the
year over as Date.UTC does. -/
def civilDaysNorm (y m d : ℤ) : ℤ :=
  let mi := m - 1
  civilDays (y + mi / 12) (mi % 12 + 1) d

/-- The inverse of civilDays: the (year, month, day) of a day number. -/
def civilOfDays (z : ℤ) : ℤ × ℤ × ℤ :=
  let z2 := z + 719468
  let era := z2 / 146097
  let doe := z2 - era * 146097
  let yoe := (doe - doe / 1460 + doe / 36524 - doe / 146096) / 365
  let y := yoe + era * 400
  let doy := doe - (365 * yoe + yoe / 4 - yoe / 100)
  let mp := (5 * doy + 2) / 153
  let d := doy - (153 * mp + 2) / 5 + 1
  let m := if mp < 10 then mp + 3 else mp - 9
  (if m ≤ 2 then y + 1 else y, m, d)

/-- The numeric value of a decimal digit character. -/
def digitVal (c : Char) : ℤ := (c.toNat : ℤ) - 48

/-- The three numeric parts of a YYYY-MM-DD shaped string, as split("-")
followed by Number would produce them on such a string. -/
def ymdParts (s : String) : Option (ℤ × ℤ × ℤ) :=
  match s.data with
  | [y1, y2, y3, y4, h1, m1, m2, h2, d1, d2] =>
    if y1.isDigit && y2.isDigit && y3.isDigit && y4.isDigit && (h1 == '-') &&
        m1.isDigit && m2.isDigit && (h2 == '-') && d1.isDigit && d2.isDigit then
      some (((digitVal y1 * 10 + digitVal y2) * 10 + digitVal y3) * 10 + digitVal y4,
        digitVal m1 * 10 + digitVal m2, digitVal d1 * 10 + digitVal d2)
    else none
  | _ => none

/-- The toDateUTC conversion of a string already known to match the
YYYY-MM-DD shape, as a day number. -/
def toDayNumber (ymd : String) : ℤ :=
  match ymdParts ymd with
  | some (y, m, d) => civilDaysNorm y m d
  | none => 0

/-- The two digit zero padding of formatYmdUTC. -/
def pad2 (n : ℤ) : String :=
  if n < 10 then "0" ++ toString n else toString n

/-- The formatYmdUTC rendering of a day number. -/
def formatYmd (z : ℤ) : String :=
  let c := civilOfDays z
  toString c.1 ++ "-" ++ pad2 c.2.1 ++ "-" ++ pad2 c.2.2

/-- The addDaysUTC helper of api/weeklyReportCalc.js. -/
def addDaysUTC (ymd : String) (delta : ℤ) : String :=
  formatYmd (toDayNumber ymd + delta)

/-- The Gregorian leap year rule. -/
def isLeap (y : ℤ) : Bool :=
  (y % 4 == 0 && y % 100 != 0) || y % 400 == 0

/-- Days in a month of the Gregorian calendar. -/
def daysInMonth (y m : ℤ) : ℤ :=
  if m = 2 then (if isLeap y then 29 else 28)
  else if m = 4 ∨ m = 6 ∨ m = 9 ∨ m = 11 then 30
  else 31

/-- Strict ISO parse of a YYYY-MM-DD string as new Date(s ++
"T00:00:00Z") validates it: the shape must match and the month and day
must be within calendar range. Returns the day number. -/
def parseYmdStrict (s : String) : Option ℤ :=
  if ymdShape s then
    match ymdParts s with
    | some (y, m, d) =>
      if 1 ≤ m ∧ m ≤ 12 ∧ 1 ≤ d ∧ d ≤ daysInMonth y m then
        some (civilDays y m d)
      else none
    | none => none
  else none

end JsDate

/-- One daily_health_summary row as read back for the weekly calculators:
each numeric column is null or a finite number. -/
structure DailyRow where
  date : String := ""
  sleep_duration_minutes : Option ℚ := none
  hrv : Option ℚ := none
  resting_hr : Option ℚ := none
  steps : Option ℚ := none
  active_calories : Option ℚ := none
deriving DecidableEq

namespace WeeklyCalc

/-- The isValidYmd regex of api/weeklyReportCalc.js. -/
def isValidYmd (s : String) : Bool := ymdShape s

/-- The avg helper: arithmetic mean of a list of finite numbers, null for
an empty list, accumulated left to right from zero. -/
def avg (l : List ℚ) : Option ℚ :=
  if l.length = 0 then none else some (l.foldl (fun a b => a + b) 0 / (l.length : ℚ))

/-- The pctChange helper; Number.isFinite rejects null inputs without
coercion, and a zero previous value yields null. -/
def pctChange (current prev : Option ℚ) : Option ℚ :=
  match current, prev with
  | some c, some p => if p = 0 then none else some ((c - p) / p * 100)
  | _, _ => none

/-- The round(n, digits) helper. -/
def roundDigits (n : ℚ) (digits : ℕ) : ℚ :=
  ((round (n * 10 ^ digits) : ℤ) : ℚ) / 10 ^ digits

/-- The current-window membership filter of the aggregation loop: a
truthy date within [weekStart, weekEnd] by string comparison. -/
def inWindow (weekStart weekEnd : String) (r : DailyRow) : Bool :=
  decide (r.date ≠ "") && !strLt r.date weekStart && !strLt weekEnd r.date

/-- The rows of the current window, in input order. -/
def currRows (weekStart weekEnd : String) (dailyRows : List DailyRow) : List DailyRow :=
  dailyRows.filter (inWindow weekStart weekEnd)

/-- The sleep minutes collected from the current window: Number(x || 0)
kept when finite and positive. -/
def sleepVals (rows : List DailyRow) : List ℚ :=
  rows.filterMap (fun r =>
    let s := r.sleep_duration_minutes.getD 0
    if 0 < s then some s else none)

/-- The HRV values collected from the current window. -/
def hrvVals (rows : List DailyRow) : List ℚ :=
  rows.filterMap (fun r =>
    let h := r.hrv.getD 0
    if 0 < h then some h else none)

/-- The resting HR values collected from the current window. -/
def rhrVals (rows : List DailyRow) : List ℚ :=
  rows.filterMap (fun r =>
    let x := r.resting_hr.getD 0
    if 0 < x then some x else none)

/-- The previous-window sleep average: rows with a positive value,
averaged; the previous rows are not date-filtered. -/
def prevSleepAvg (rows : List DailyRow) : Option ℚ :=
  avg ((rows.filter (fun r => 0 < r.sleep_duration_minutes.getD 0)).map
    (fun r => r.sleep_duration_minutes.getD 0))

/-- The previous-window HRV average. -/
def prevHrvAvg (rows : List DailyRow) : Option ℚ :=
  avg ((rows.filter (fun r => 0 < r.hrv.getD 0)).map (fun r => r.hrv.getD 0))

/-- The previous-window resting HR average. -/
def prevRhrAvg (rows : List DailyRow) : Option ℚ :=
  avg ((rows.filter (fun r => 0 < r.resting_hr.getD 0)).map (fun r => r.resting_hr.getD 0))

/-- The weekly report object of api/weeklyReportCalc.js. The trends_json
block, whose lines interpolate numbers into display text, is omitted from
the embedding; every decision-bearing field is present. -/
structure Report where
  user_id : String
  week_start : String
  week_end : String
  goal_sleep_minutes : ℚ
  days_count : ℕ
  days_with_sleep : ℕ
  days_with_hrv : ℕ
  days_with_resting_hr : ℕ
  avg_sleep_minutes : Option ℚ
  avg_hrv : Option ℚ
  avg_resting_hr : Option ℚ
  sleep_change_pct : Option ℚ
  hrv_change_pct : Option ℚ
  resting_hr_change_bpm : Option ℚ
  summary_text : String
  action_items : List String
deriving DecidableEq

/-- The body of buildWeeklyReport past its two validation guards. -/
def weeklyCore (uid endStr : String) (goalSleepMinutes : ℚ)
    (dailyRows prevDailyRows : List DailyRow) : Report :=
  let weekEnd := endStr
    let weekStart := JsDate.addDaysUTC weekEnd (-6)
    let rows1 := currRows weekStart weekEnd dailyRows
    let sleepMins := sleepVals rows1
    let hrvVs := hrvVals rows1
    let rhrVs := rhrVals rows1
    let avgSleep := avg sleepMins
    let avgHrv := avg hrvVs
    let avgRhr := avg rhrVs
    let prevSleep := prevSleepAvg prevDailyRows
    let prevHrv := prevHrvAvg prevDailyRows
    let prevRhr := prevRhrAvg prevDailyRows
    let sleepChangePct := if avgSleep.isSome && prevSleep.isSome then pctChange avgSleep prevSleep else none
    let hrvChangePct := if avgHrv.isSome && prevHrv.isSome then pctChange avgHrv prevHrv else none
    let restingHrChangeBpm :=
      match avgRhr, prevRhr with
      | some a, some b => some (a - b)
      | _, _ => none
    let sleepAction :=
      match avgSleep with
      | some a => if a < goalSleepMinutes then ["Add 30 minutes earlier bedtime"] else []
      | none => []
    let stressFlag :=
      (match hrvChangePct with
       | some p => decide (p < -3)
       | none => false) ||
      (match restingHrChangeBpm with
       | some q => decide (1 < q)
       | none => false)
    let actions0 := sleepAction ++ (if stressFlag then ["One extra rest/low-intensity day mid-week"] else [])
    let actions := if actions0 = [] then ["Maintain consistency: keep sleep and training routines steady"] else actions0
    let summaryText :=
      if avgSleep.isSome && avgHrv.isSome && avgRhr.isSome then
        let hrvWord :=
          match hrvChangePct with
          | none => "stable"
          | some p => if 0 ≤ p then "improving" else "dipping"
        let rhrWord :=
          match restingHrChangeBpm with
          | none => "steady"
          | some q => if q ≤ 0 then "improving" else "elevated"
        "HRV " ++ hrvWord ++ ", resting HR " ++ rhrWord ++ ". Sleep " ++
          (if goalSleepMinutes ≤ avgSleep.getD 0 then "near target" else "slightly below target") ++ "."
      else if avgSleep.isNone && avgHrv.isNone && avgRhr.isNone then
        "Awaiting sync: not enough data this week."
      else "Weekly report generated."
    { user_id := uid
      week_start := weekStart
      week_end := weekEnd
      goal_sleep_minutes := ((round (if goalSleepMinutes = 0 then (450 : ℚ) else goalSleepMinutes) : ℤ) : ℚ)
      days_count := rows1.length
      days_with_sleep := sleepMins.length
      days_with_hrv := hrvVs.length
      days_with_resting_hr := rhrVs.length
      avg_sleep_minutes := avgSleep.map (fun a => ((round a : ℤ) : ℚ))
      avg_hrv := avgHrv.map (fun a => roundDigits a 4)
      avg_resting_hr := avgRhr.map (fun a => roundDigits a 4)
      sleep_change_pct := sleepChangePct.map (fun p => roundDigits p 6)
      hrv_change_pct := hrvChangePct.map (fun p => roundDigits p 6)
      resting_hr_change_bpm := restingHrChangeBpm.map (fun p => roundDigits p 6)
      summary_text := summaryText
      action_items := actions }

/-- The buildWeeklyReport function of api/weeklyReportCalc.js; none
models the two thrown validation errors (missing uid, invalid end
date). -/
def buildWeeklyReport (uid endStr : String) (goalSleepMinutes : ℚ)
    (dailyRows prevDailyRows : List DailyRow) : Option Report :=
  if uid = "" then none
  else if ¬ isValidYmd endStr then none
  else some (weeklyCore uid endStr goalSleepMinutes dailyRows prevDailyRows)

end WeeklyCalc

namespace WeeklyOld

/-- The parseDateYYYYMMDD helper of the older api/weeklyReportCalc.js:
null for a falsy input, else the strict ISO parse of the first ten
characters, as a day number. -/
def parseDateYYYYMMDD (s : String) : Option ℤ :=
  if s = "" then none else JsDate.parseYmdStrict (s.take 10)

/-- The pick helper: values of a field across rows, coerced by Number and
kept when finite and nonzero (negatives pass, nulls coerce to zero and
drop out). -/
def pick (l : List (DailyRow × ℤ)) (f : DailyRow → Option ℚ) : List ℚ :=
  l.filterMap (fun rc =>
    let x := (f rc.1).getD 0
    if x ≠ 0 then some x else none)

/-- The avg helper of the older calculator. -/
def avgV (l : List ℚ) : Option ℚ :=
  if l.length = 0 then none else some (l.foldl (fun a b => a + b) 0 / (l.length : ℚ))

/-- The sum helper of the older calculator. -/
def sumV (l : List ℚ) : ℚ := l.foldl (fun a b => a + b) 0

/-- The pctChange helper of the older calculator: both arguments are
coerced by Number, so a null current becomes zero; only a zero (or null)
previous average yields null. -/
def pctChangeV (current prev : Option ℚ) : Option ℚ :=
  let c := current.getD 0
  let p := prev.getD 0
  if p = 0 then none else some ((c - p) / p * 100)

/-- The round1 helper: Number coerces null to zero, so the result is
always a number here. -/
def round1V (o : Option ℚ) : Option ℚ :=
  some (((round ((o.getD 0) * 10) : ℤ) : ℚ) / 10)

/-- The stats block of the older weekly report. -/
structure VStats where
  avg_sleep_minutes_last7 : Option ℚ
  sleep_goal_minutes : ℚ
  avg_hrv_ms_last7 : Option ℚ
  hrv_change_pct : Option ℚ
  avg_resting_hr_bpm_last7 : Option ℚ
  resting_hr_change_bpm : Option ℚ
  steps_total_last7 : ℚ
  active_calories_total_last7 : ℚ
deriving DecidableEq

/-- The older weekly report object. The trends narrative lines, which
interpolate numbers into display text, are omitted; status, summary,
action items, stats and missing are all present. stats is none for the
empty object of the awaiting_sync branch. -/
structure VReport where
  status : String
  message : String
  period : Option (String × String × ℕ)
  summary : String
  action_items : List String
  stats : Option VStats
  missing : List String
deriving DecidableEq

/-- The rows with parseable dates, paired with their day numbers. -/
def cleanedOf (rows : List DailyRow) : List (DailyRow × ℤ) :=
  rows.filterMap (fun r => (parseDateYYYYMMDD r.date).map (fun dn => (r, dn)))

/-- The end day of the report window: the parsed endDate option when
truthy and parseable, else the maximum date among the cleaned rows. -/
def endDayOf (cleaned : List (DailyRow × ℤ)) (c0 : DailyRow × ℤ) (endDate : Option String) : ℤ :=
  let chosen :=
    match endDate with
    | some e => if e ≠ "" then parseDateYYYYMMDD e else none
    | none => none
  match chosen with
  | some e => e
  | none => cleaned.foldl (fun mx rc => if mx < rc.2 then rc.2 else mx) c0.2

/-- The missing list of the older calculator, from the current-window
averages. -/
def missingV (avgSleep avgHrv avgRhr : Option ℚ) : List String :=
  (if avgSleep.isNone then ["sleep"] else []) ++
  (if avgHrv.isNone then ["hrv"] else []) ++
  (if avgRhr.isNone then ["resting_hr"] else [])

/-- The report of the older calculator for the awaiting_sync branch (no
row with a parseable date). -/
def awaitingReportV : VReport :=
  { status := "awaiting_sync"
    message := "No data found for this user yet."
    period := none
    summary := "Awaiting sync"
    action_items := ["Sync your Apple Health data to generate a weekly report."]
    stats := none
    missing := ["sleep", "hrv", "resting_hr"] }

/-- The body of the older buildWeeklyReport once at least one row has a
parseable date. -/
def weeklyCoreV (c0 : DailyRow × ℤ) (crest : List (DailyRow × ℤ))
    (endDate : Option String) (goal : ℚ) : VReport :=
    let cleaned := c0 :: crest
    let endN := endDayOf cleaned c0 endDate
    let start7 := endN - 6
    let startPrev7 := endN - 13
    let endPrev7 := endN - 7
    let last7 := cleaned.filter (fun rc => decide (start7 ≤ rc.2) && decide (rc.2 ≤ endN))
    let prev7 := cleaned.filter (fun rc => decide (startPrev7 ≤ rc.2) && decide (rc.2 ≤ endPrev7))
    let avgSleepLast7 := avgV (last7.filterMap (fun rc =>
      let s := rc.1.sleep_duration_minutes.getD 0
      if 0 < s then some s else none))
    let _avgSleepPrev7 := avgV (prev7.filterMap (fun rc =>
      let s := rc.1.sleep_duration_minutes.getD 0
      if 0 < s then some s else none))
    let avgHrvLast7 := avgV (pick last7 (fun r => r.hrv))
    let avgHrvPrev7 := avgV (pick prev7 (fun r => r.hrv))
    let avgRhrLast7 := avgV (pick last7 (fun r => r.resting_hr))
    let avgRhrPrev7 := avgV (pick prev7 (fun r => r.resting_hr))
    let sumStepsLast7 := sumV (last7.filterMap (fun rc =>
      let x := rc.1.steps.getD 0
      if 0 ≤ x then some x else none))
    let sumActiveCalLast7 := sumV (last7.filterMap (fun rc =>
      let x := rc.1.active_calories.getD 0
      if 0 ≤ x then some x else none))
    let hrvDeltaPct := pctChangeV avgHrvLast7 avgHrvPrev7
    let rhrDelta :=
      match avgRhrLast7, avgRhrPrev7 with
      | some a, some b => some (a - b)
      | _, _ => none
    let missing := missingV avgSleepLast7 avgHrvLast7 avgRhrLast7
    let a1 :=
      match avgSleepLast7 with
      | some s => if s + 1 < goal then ["Add 30 minutes earlier bedtime"] else []
      | none => []
    let a2 :=
      match hrvDeltaPct with
      | some p => if p < -5 then ["Plan one extra low-intensity / recovery day this week"] else []
      | none => []
    let a3 :=
      match rhrDelta with
      | some q => if 2 < q then ["Reduce intensity 1 day; prioritize sleep + hydration"] else []
      | none => []
    let a4 := if 70000 < sumStepsLast7 ∨ 3500 < sumActiveCalLast7 then
      ["One extra rest/low-intensity day mid-week"] else []
    let uniq := ((a1 ++ a2 ++ a3 ++ a4).eraseDups).take 3
    let actionItems := if uniq = [] then
      ["Keep consistency: sleep, hydration, and steady training load."] else uniq
    let summary :=
      match hrvDeltaPct, rhrDelta with
      | some p, some q =>
        "HRV " ++ (if 0 ≤ p then "stable/improving" else "dropping") ++ ", resting HR " ++
          (if q ≤ 0 then "improving" else "rising") ++ "."
      | _, _ =>
        if missing.length ≠ 0 then "Partial data synced. Some metrics are missing."
        else "Weekly report generated."
    { status := if 2 ≤ missing.length then "partial" else "ok"
      message := "Success"
      period := some (JsDate.formatYmd start7, JsDate.formatYmd endN, last7.length)
      summary := summary
      action_items := actionItems
      stats := some
        { avg_sleep_minutes_last7 := avgSleepLast7.map (fun a => ((round a : ℤ) : ℚ))
          sleep_goal_minutes := goal
          avg_hrv_ms_last7 := round1V avgHrvLast7
          hrv_change_pct := round1V hrvDeltaPct
          avg_resting_hr_bpm_last7 := round1V avgRhrLast7
          resting_hr_change_bpm := round1V rhrDelta
          steps_total_last7 := ((round sumStepsLast7 : ℤ) : ℚ)
          active_calories_total_last7 := ((round sumActiveCalLast7 : ℤ) : ℚ) }
      missing := missing }

/-- The buildWeeklyReport function of the older api/weeklyReportCalc.js
(src/unnamed/part_004). A zero or absent sleep goal falls back to 450. -/
def buildWeeklyReportV (rows : List DailyRow) (endDate : Option String)
    (sleepGoalMinutes : ℚ) : VReport :=
  let goal := if sleepGoalMinutes = 0 then (450 : ℚ) else sleepGoalMinutes
  match cleanedOf rows with
  | [] => awaitingReportV
  | c0 :: crest => weeklyCoreV c0 crest endDate goal

end WeeklyOld

/-- A current-window day with only an HRV reading of 50. -/
def c6CurRow : DailyRow := { date := "2026-01-07", hrv := some 50 }

/-- A previous-window day with only an HRV reading of 60. -/
def c6PrevRow : DailyRow := { date := "2025-12-30", hrv := some 60 }

/-- A fully populated day for the older weekly calculator. -/
def c7Row1 : DailyRow :=
  { date := "2026-01-06", sleep_duration_minutes := some 400, hrv := some 50, resting_hr := some 60 }

/-- A second fully populated day for the older weekly calculator. -/
def c7Row2 : DailyRow :=
  { date := "2026-01-07", sleep_duration_minutes := some 420, hrv := some 55, resting_hr := some 58 }

set_option maxRecDepth 8000

/-- C1. The spec's readiness example record (sleep 480 of target 480, hrv
at the good reference, resting HR at the good reference, 8000 steps, 500
active calories) is claimed to score at least 90. The code returns
exactly 88: the recovery proxy load is 8000/8000 + 500/500 = 2.0, two
standard units, giving a recovery subscore of 50, so the weighted sum is
87.5 and rounds to 88, which is less than 90. -/
theorem readiness_example_counterexample :
    (Readiness.computeReadiness (some Readiness.exampleRow) {}).total = some 88 ∧
    ¬ ((90 : ℚ) ≤ 88) := by
  constructor
  · with_unfolding_all decide
  · with_unfolding_all decide

/-- C1 amended. On the spec's example record computeReadiness returns
total 88 (at least 85 but below 90), status ok, and an empty missing
list; the recovery subscore is 50 because the activity load is 2.0. -/
theorem readiness_example_amended :
    (Readiness.computeReadiness (some Readiness.exampleRow) {}).total = some 88 ∧
    (85 : ℚ) ≤ 88 ∧
    (Readiness.computeReadiness (some Readiness.exampleRow) {}).status = "ok" ∧
    (Readiness.computeReadiness (some Readiness.exampleRow) {}).missing = [] ∧
    (Readiness.recoveryScoreOf Readiness.exampleRow) = some 50 := by
  refine ⟨?_, ?_, ?_, ?_, ?_⟩ <;> with_unfolding_all decide

/-- C9. For a null input record the claim lists the five subscore
categories (sleep, hrv, resting_hr, recovery, subjective) as missing; the
code instead lists the five input categories sleep, hrv, resting_hr,
steps, active_calories, so recovery and subjective never appear. -/
theorem readiness_null_counterexample :
    (Readiness.computeReadiness none {}).missing =
      ["sleep", "hrv", "resting_hr", "steps", "active_calories"] ∧
    "recovery" ∉ (Readiness.computeReadiness none {}).missing ∧
    "subjective" ∉ (Readiness.computeReadiness none {}).missing := by
  refine ⟨?_, ?_, ?_⟩ <;> with_unfolding_all decide

/-- C9 amended. For a null input record computeReadiness returns status
awaiting_sync, a null total, and a missing list of the five input
categories sleep, hrv, resting_hr, steps and active_calories, without
raising an exception. -/
theorem readiness_null_amended :
    (Readiness.computeReadiness none {}).status = "awaiting_sync" ∧
    (Readiness.computeReadiness none {}).total = none ∧
    (Readiness.computeReadiness none {}).missing =
      ["sleep", "hrv", "resting_hr", "steps", "active_calories"] := by
  refine ⟨?_, ?_, ?_⟩ <;> with_unfolding_all decide

/-- The weighted-total rule of computeReadiness, shared by the claims
about the total. -/
theorem readiness_total_formula (o : Readiness.Opts) (r : Readiness.DayRow) :
    ((Readiness.sleepScoreOf o r = none ∨ Readiness.hrvScoreOf o r = none ∨
        Readiness.rhrScoreOf o r = none ∨ Readiness.recoveryScoreOf r = none) →
      (Readiness.computeReadiness (some r) o).total = none ∧
      (Readiness.computeReadiness (some r) o).status = "awaiting_sync") ∧
    (∀ s h rh c : ℚ, Readiness.sleepScoreOf o r = some s →
      Readiness.hrvScoreOf o r = some h → Readiness.rhrScoreOf o r = some rh →
      Readiness.recoveryScoreOf r = some c →
      (Readiness.computeReadiness (some r) o).total =
        some (Readiness.clamp
          ((round (s * 0.30 + h * 0.25 + rh * 0.20 + c * 0.15 + 50 * 0.10) : ℤ) : ℚ) 0 100) ∧
      (Readiness.computeReadiness (some r) o).status = "ok") := by
  constructor
  · intro hnull
    rcases hnull with h | h | h | h <;>
      simp [Readiness.computeReadiness, h]
  · intro s h rh c hs hh hr hc
    simp [Readiness.computeReadiness, hs, hh, hr, hc]

/-- C5. If any of the four measured subscores is null the total is null
and the status is awaiting_sync, with no weight renormalization;
otherwise the total is clamp(round(sleep 0.30 + hrv 0.25 + resting_hr
0.20 + recovery 0.15 + subjective 0.10), 0, 100) with the constant
subjective subscore 50, and the status is ok. -/
theorem readiness_weighted_total (o : Readiness.Opts) (r : Readiness.DayRow) :
    ((Readiness.sleepScoreOf o r = none ∨ Readiness.hrvScoreOf o r = none ∨
        Readiness.rhrScoreOf o r = none ∨ Readiness.recoveryScoreOf r = none) →
      (Readiness.computeReadiness (some r) o).total = none ∧
      (Readiness.computeReadiness (some r) o).status = "awaiting_sync") ∧
    (∀ s h rh c : ℚ, Readiness.sleepScoreOf o r = some s →
      Readiness.hrvScoreOf o r = some h → Readiness.rhrScoreOf o r = some rh →
      Readiness.recoveryScoreOf r = some c →
      (Readiness.computeReadiness (some r) o).total =
        some (Readiness.clamp
          ((round (s * 0.30 + h * 0.25 + rh * 0.20 + c * 0.15 + 50 * 0.10) : ℤ) : ℚ) 0 100) ∧
      (Readiness.computeReadiness (some r) o).status = "ok") :=
  readiness_total_formula o r

/-- C5 witness. On the spec example record all four measured subscores
are present and the weighted total formula gives the returned total. -/
theorem readiness_weighted_total_witness :
    (Readiness.computeReadiness (some Readiness.exampleRow) {}).total =
      some (Readiness.clamp
        ((round ((100 : ℚ) * 0.30 + 100 * 0.25 + 100 * 0.20 + 50 * 0.15 + 50 * 0.10) : ℤ) : ℚ) 0 100) ∧
    (Readiness.computeReadiness (some Readiness.exampleRow) {}).status = "ok" :=
  (readiness_weighted_total {} Readiness.exampleRow).2 100 100 100 50
    (by with_unfolding_all decide) (by with_unfolding_all decide)
    (by with_unfolding_all decide) (by with_unfolding_all decide)

/-- Any value clamped to the 0..100 band lies in it. -/
theorem clamp_mem_unit (x : ℚ) :
    0 ≤ Readiness.clamp x 0 100 ∧ Readiness.clamp x 0 100 ≤ 100 := by
  unfold Readiness.clamp Readiness.qmax Readiness.qmin
  split_ifs <;> constructor <;> linarith

/-- A present sleep subscore lies in the 0..100 band. -/
theorem sleepScoreOf_mem (o : Readiness.Opts) (r : Readiness.DayRow) (v : ℚ)
    (h : Readiness.sleepScoreOf o r = some v) : 0 ≤ v ∧ v ≤ 100 := by
  rcases hsm : r.sleep_duration_minutes with _ | sm <;>
    simp only [Readiness.sleepScoreOf, hsm] at h
  · cases h
  · split_ifs at h <;>
      (injection h with h
       subst h
       exact clamp_mem_unit _)

/-- A present HRV subscore lies in the 0..100 band. -/
theorem hrvScoreOf_mem (o : Readiness.Opts) (r : Readiness.DayRow) (v : ℚ)
    (h : Readiness.hrvScoreOf o r = some v) : 0 ≤ v ∧ v ≤ 100 := by
  rcases hm : r.hrv with _ | x <;> simp only [Readiness.hrvScoreOf, hm] at h
  · cases h
  · split_ifs at h
    injection h with h
    subst h
    exact clamp_mem_unit _

/-- A present resting HR subscore lies in the 0..100 band. -/
theorem rhrScoreOf_mem (o : Readiness.Opts) (r : Readiness.DayRow) (v : ℚ)
    (h : Readiness.rhrScoreOf o r = some v) : 0 ≤ v ∧ v ≤ 100 := by
  rcases hm : r.resting_hr with _ | x <;> simp only [Readiness.rhrScoreOf, hm] at h
  · cases h
  · split_ifs at h
    injection h with h
    subst h
    exact clamp_mem_unit _

/-- A present recovery subscore lies in the 0..100 band. -/
theorem recoveryScoreOf_mem (r : Readiness.DayRow) (v : ℚ)
    (h : Readiness.recoveryScoreOf r = some v) : 0 ≤ v ∧ v ≤ 100 := by
  unfold Readiness.recoveryScoreOf at h
  split_ifs at h
  injection h with h
  subst h
  exact clamp_mem_unit _

/-- C10. Whenever computeReadiness returns a non-null total it is at most
95: the four measured subscores are clamped to at most 100 and carry
combined weight 0.90, the subjective subscore is the constant 50 with
weight 0.10, so the weighted sum is at most 95 and rounding and clamping
cannot raise it. -/
theorem readiness_total_le_95 (o : Readiness.Opts) (row : Option Readiness.DayRow) (t : ℚ)
    (ht : (Readiness.computeReadiness row o).total = some t) : t ≤ 95 := by
  cases row with
  | none => simp [Readiness.computeReadiness] at ht
  | some r =>
    rcases hs : Readiness.sleepScoreOf o r with _ | s
    · simp [Readiness.computeReadiness, hs] at ht
    rcases hh : Readiness.hrvScoreOf o r with _ | h
    · simp [Readiness.computeReadiness, hh] at ht
    rcases hr : Readiness.rhrScoreOf o r with _ | rh
    · simp [Readiness.computeReadiness, hr] at ht
    rcases hc : Readiness.recoveryScoreOf r with _ | c
    · simp [Readiness.computeReadiness, hc] at ht
    have hsb := sleepScoreOf_mem o r s hs
    have hhb := hrvScoreOf_mem o r h hh
    have hrb := rhrScoreOf_mem o r rh hr
    have hcb := recoveryScoreOf_mem r c hc
    have htot := (readiness_total_formula o r).2 s h rh c hs hh hr hc
    rw [htot.1] at ht
    injection ht with ht
    subst ht
    have hw : s * 0.30 + h * 0.25 + rh * 0.20 + c * 0.15 + 50 * 0.10 ≤ 95 := by
      rcases hsb with ⟨_, h1⟩
      rcases hhb with ⟨_, h2⟩
      rcases hrb with ⟨_, h3⟩
      rcases hcb with ⟨_, h4⟩
      nlinarith
    set w := s * 0.30 + h * 0.25 + rh * 0.20 + c * 0.15 + 50 * 0.10 with hwdef
    have hround : (round w : ℤ) ≤ 95 := by
      rw [round_eq]
      have h96 : w + 1 / 2 < ((96 : ℤ) : ℚ) := by push_cast; linarith
      have hfl : ⌊w + 1 / 2⌋ < (96 : ℤ) := Int.floor_lt.mpr h96
      omega
    have hcast : ((round w : ℤ) : ℚ) ≤ 95 := by exact_mod_cast hround
    unfold Readiness.clamp Readiness.qmax Readiness.qmin
    split_ifs <;> linarith

/-- C10 witness. The spec example record yields total 88, which the bound
confirms is at most 95. -/
theorem readiness_total_le_95_witness : (88 : ℚ) ≤ 95 :=
  readiness_total_le_95 {} (some Readiness.exampleRow) 88 (by with_unfolding_all decide)

/-- C3. The camel-case vendor name "HeartRateVariabilitySDNN" lowercases
to a string without underscores, which contains none of the underscore
separated known tokens: the metric is not recognized and an HRV sample
under that name leaves the day's hrv field null instead of classifying as
HRV. -/
theorem classifier_sdnn_counterexample :
    Ingest.isKnownMetric "HeartRateVariabilitySDNN" = false ∧
    (Ingest.buildRows "u" [Ingest.sdnnMetric]).map (fun r => r.hrv) = [Ingest.JNum.null] := by
  constructor
  · with_unfolding_all decide
  · with_unfolding_all decide

/-- C3 amended. Matching lowercases the raw name and tests substring
containment of the underscore separated tokens: any casing of
heart_rate_variability_sdnn is recognized, and any lowercased name
containing that token stores the sample value in the hrv field;
body_temperature is unknown and its sample is processed without an
exception, leaving a default day row; the underscore-free camel-case
spelling is not recognized (see the counterexample). -/
theorem classifier_amended :
    (∀ s : String, s.toLower = "heart_rate_variability_sdnn" →
      Ingest.isKnownMetric s = true) ∧
    Ingest.isKnownMetric "body_temperature" = false ∧
    (Ingest.buildRows "u" [Ingest.bodyTempMetric] =
      [Ingest.sanitize (Ingest.newRow "u" "2026-01-05")]) ∧
    (∀ (name : String) (v : Ingest.JSVal) (q : ℚ) (r : Ingest.Row),
      strIncludes name "heart_rate_variability_sdnn" = true →
      Ingest.jsNumber v = some q →
      (Ingest.applyNonSleep name v r).hrv = Ingest.JNum.num q) := by
  refine ⟨?_, ?_, ?_, ?_⟩
  · intro s hs
    simp only [Ingest.isKnownMetric, hs]
    with_unfolding_all decide
  · with_unfolding_all decide
  · with_unfolding_all decide
  · intro name v q r hinc hnum
    simp only [Ingest.applyNonSleep, hinc, Bool.true_or, eq_self_iff_true, if_true,
      apply_ite (fun row : Ingest.Row => row.hrv), ite_self, hnum, Ingest.jnumOfOpt]

/-- C3 amended witness. The upper-case spelling with underscores is
recognized and a sample value of 61 under a name containing the token
lands in the hrv field. -/
theorem classifier_amended_witness :
    Ingest.isKnownMetric "Heart_Rate_Variability_SDNN" = true ∧
    (Ingest.applyNonSleep "heart_rate_variability_sdnn" (.vnum 61)
      (Ingest.newRow "u" "2026-01-05")).hrv = Ingest.JNum.num 61 :=
  ⟨classifier_amended.1 "Heart_Rate_Variability_SDNN" (by with_unfolding_all decide),
   classifier_amended.2.2.2 "heart_rate_variability_sdnn" (.vnum 61) 61
     (Ingest.newRow "u" "2026-01-05") (by with_unfolding_all decide) rfl⟩

namespace Ingest

/-- Looking a day up right after setRow stored it yields the stored
row. -/
theorem getRow_setRow (st : St) (day : String) (r : Row) :
    getRow (setRow st day r) day = some r := by
  induction st with
  | nil => simp [setRow, getRow]
  | cons p rest ih =>
    obtain ⟨k, r0⟩ := p
    by_cases hk : k = day
    · simp [setRow, getRow, hk]
    · simp [setRow, getRow, hk, ih]

/-- A successful lookup is a membership: the entry is stored under the
looked-up day. -/
theorem getRow_mem (st : St) (day : String) (r : Row) (h : getRow st day = some r) :
    (day, r) ∈ st := by
  induction st with
  | nil => cases h
  | cons p rest ih =>
    obtain ⟨k, r0⟩ := p
    by_cases hk : k = day
    · subst hk
      simp only [getRow, if_pos rfl] at h
      injection h with h
      subst h
      exact List.mem_cons_self _ _
    · simp only [getRow, if_neg hk] at h
      exact List.mem_cons_of_mem _ (ih h)

/-- The fresh row of ensureDay satisfies the field invariant. -/
theorem rowInv_newRow (uid day : String) : RowInv (newRow uid day) := by
  refine ⟨(fun h => nomatch h), (fun h => nomatch h), (fun h => nomatch h),
    (fun h => nomatch h), (fun h => nomatch h), (fun h => nomatch h), (fun h => nomatch h),
    ⟨0, rfl, le_refl 0⟩, ⟨0, rfl, le_refl 0⟩, ⟨0, rfl, le_refl 0⟩, ⟨0, rfl, le_refl 0⟩,
    ⟨0, rfl, le_refl 0⟩, ⟨0, rfl, le_refl 0⟩, ⟨0, rfl, le_refl 0⟩, ⟨0, rfl, le_refl 0⟩⟩

/-- setRow preserves the summary-object invariant when the stored row
itself satisfies it under its day. -/
theorem stInv_setRow (uid : String) (st : St) (day : String) (r : Row)
    (hst : StInv uid st)
    (hr : r.user_id = uid ∧ r.date = day ∧ day ≠ "" ∧ RowInv r) :
    StInv uid (setRow st day r) := by
  induction st with
  | nil =>
    intro p hp
    simp only [setRow, List.mem_singleton] at hp
    subst hp
    exact hr
  | cons q rest ih =>
    obtain ⟨k, r0⟩ := q
    intro p hp
    by_cases hk : k = day
    · simp only [setRow, if_pos hk] at hp
      rcases List.mem_cons.mp hp with h | h
      · subst h
        exact hr
      · exact hst _ (List.mem_cons_of_mem _ h)
    · simp only [setRow, if_neg hk] at hp
      rcases List.mem_cons.mp hp with h | h
      · subst h
        exact hst _ (List.mem_cons_self _ _)
      · exact ih (fun p hp => hst _ (List.mem_cons_of_mem _ hp)) _ h

/-- ensureDay preserves the summary-object invariant and hands back a row
that carries the user id, the day, and the field invariant. -/
theorem ensureDay_stInv (uid : String) (st : St) (day : String)
    (hst : StInv uid st) (hday : day ≠ "") :
    StInv uid (ensureDay uid st day).1 ∧
    (ensureDay uid st day).2.user_id = uid ∧
    (ensureDay uid st day).2.date = day ∧
    RowInv (ensureDay uid st day).2 := by
  unfold ensureDay
  cases hg : getRow st day with
  | some r =>
    have hm := hst _ (getRow_mem st day r hg)
    exact ⟨hst, hm.1, hm.2.1, hm.2.2.2⟩
  | none =>
    refine ⟨?_, rfl, rfl, rowInv_newRow uid day⟩
    intro p hp
    rcases List.mem_append.mp hp with h | h
    · exact hst _ h
    · simp only [List.mem_singleton] at h
      subst h
      exact ⟨rfl, rfl, hday, rowInv_newRow uid day⟩

/-- A ten character date shape is never the empty string. -/
theorem ymdShape_ne_empty (s : String) (h : ymdShape s = true) : s ≠ "" := by
  intro he
  subst he
  exact absurd h (by decide)

/-- A truthiness-filtered timestamp is the underlying field. -/
theorem tsTruthy_eq (o : Option TS) (t : TS) (h : tsTruthy o = some t) : o = some t := by
  cases o with
  | none => cases h
  | some t0 =>
    simp only [tsTruthy] at h
    split_ifs at h
    exact h

/-- The timestamp chosen by the dateStr chain is one of the sample's
three date-bearing fields. -/
theorem dateStrOf_cases (d : Sample) (t : TS) (h : dateStrOf d = some t) :
    d.date = some t ∨ d.endTs = some t ∨ d.startTs = some t := by
  unfold dateStrOf at h
  cases h1 : tsTruthy d.date with
  | some t1 =>
    rw [h1] at h
    injection h with h
    subst h
    exact Or.inl (tsTruthy_eq _ _ h1)
  | none =>
    rw [h1] at h
    cases h2 : tsTruthy d.endTs with
    | some t2 =>
      rw [h2] at h
      injection h with h
      subst h
      exact Or.inr (Or.inl (tsTruthy_eq _ _ h2))
    | none =>
      rw [h2] at h
      exact Or.inr (Or.inr (tsTruthy_eq _ _ h))

/-- Resolving the bucket day through a known chain result. -/
theorem dayKeyOf_eq (d : Sample) (t : TS) (h : dateStrOf d = some t) :
    dayKeyOf d = dayKeyOfTS t := by
  unfold dayKeyOf
  rw [h]

/-- Under good timestamps the resolved bucket day is never the empty
string. -/
theorem dayKey_ne_empty (d : Sample) (day : String) (hg : GoodSample d)
    (h : dayKeyOf d = some day) : day ≠ "" := by
  cases hds : dateStrOf d with
  | none => unfold dayKeyOf at h; rw [hds] at h; cases h
  | some t =>
    rw [dayKeyOf_eq d t hds] at h
    unfold dayKeyOfTS at h
    split_ifs at h with hshape
    · injection h with h
      subst h
      exact ymdShape_ne_empty _ hshape
    · have hcases := dateStrOf_cases d t hds
      obtain ⟨-, -, -, -, -, -, -, -, -, -, hd1, hd2, hd3⟩ := hg
      rcases hcases with hc | hc | hc
      · rw [hc] at hd1
        exact hd1 day h
      · rw [hc] at hd3
        exact hd3 day h
      · rw [hc] at hd2
        exact hd2 day h

end Ingest

namespace Ingest

/-- Adding a non-negative number to a non-negative field keeps it
non-negative. -/
theorem jAdd_nonneg (x : JNum) (m : ℚ) (hx : NonnegNum x) (hm : 0 ≤ m) :
    NonnegNum (jAdd x (some m)) := by
  obtain ⟨q, hq, hq0⟩ := hx
  subst hq
  exact ⟨q + m, rfl, add_nonneg hq0 hm⟩

/-- A good sample value coerces to a non-negative number. -/
theorem goodVal_number (v : JSVal) (h : GoodVal v) :
    ∃ q : ℚ, jsNumber v = some q ∧ 0 ≤ q := by
  cases v with
  | vnull => exact ⟨0, rfl, le_refl 0⟩
  | vnum q => exact ⟨q, rfl, h⟩
  | vstr s n => cases h

/-- A good sample value run through the value-or-zero coercion is a
non-negative number. -/
theorem goodVal_numOrZero (v : JSVal) (h : GoodVal v) :
    ∃ q : ℚ, numOrZero v = some q ∧ 0 ≤ q := by
  unfold numOrZero
  split_ifs
  · exact goodVal_number v h
  · exact ⟨0, rfl, le_refl 0⟩

/-- Rounding preserves non-negativity. -/
theorem round_nonneg_q (x : ℚ) (h : 0 ≤ x) : (0 : ℤ) ≤ round x := by
  rw [round_eq]
  have : ((0 : ℤ) : ℚ) ≤ x + 1 / 2 := by push_cast; linarith
  exact Int.le_floor.mpr this

/-- A summary hour field converts to a non-negative minute count. -/
theorem summaryMinutes_nonneg (v : JSVal) (h : GoodVal v) : 0 ≤ summaryMinutes v := by
  obtain ⟨q, hq, hq0⟩ := goodVal_number v h
  unfold summaryMinutes
  rw [hq]
  have h60 : (0 : ℚ) ≤ (some q).getD 0 * 60 := by
    simp only [Option.getD_some]
    positivity
  exact_mod_cast round_nonneg_q _ h60

/-- The summary overwrite preserves the field invariant when the sample
is good. -/
theorem rowInv_applySummary (d : Sample) (r : Row) (hd : GoodSample d) (hr : RowInv r) :
    RowInv (applySummary d r) := by
  obtain ⟨h1, h2, h3, h4, h5, h6, h7, h8, h9, h10, h11, h12, h13, h14, h15⟩ := hr
  obtain ⟨-, -, -, -, -, g6, g7, g8, g9, g10, -, -, -⟩ := hd
  have t6 := summaryMinutes_nonneg d.totalSleep g6
  have t7 := summaryMinutes_nonneg d.deep g7
  have t8 := summaryMinutes_nonneg d.rem g8
  have t9 := summaryMinutes_nonneg d.core g9
  have t10 := summaryMinutes_nonneg d.awake g10
  exact ⟨h1, h2, h3, h4, h5, h6, h7,
    ⟨_, rfl, t6⟩, ⟨_, rfl, t7⟩, ⟨_, rfl, t8⟩, ⟨_, rfl, t9⟩, ⟨_, rfl, t10⟩, h13, h14, h15⟩

/-- The segment update preserves the field invariant for a positive
duration. -/
theorem rowInv_segUpdate (d : Sample) (m : ℚ) (r : Row) (hm : 0 < m) (hr : RowInv r) :
    RowInv (segUpdate d m r) := by
  obtain ⟨h1, h2, h3, h4, h5, h6, h7, h8, h9, h10, h11, h12, h13, h14, h15⟩ := hr
  have hm0 : 0 ≤ m := le_of_lt hm
  unfold segUpdate
  dsimp only
  split_ifs <;>
    refine ⟨?_, ?_, ?_, ?_, ?_, ?_, ?_, ?_, ?_, ?_, ?_, ?_, ?_, ?_, ?_⟩ <;>
      first
        | assumption
        | exact jAdd_nonneg _ _ h8 hm0
        | exact jAdd_nonneg _ _ h9 hm0
        | exact jAdd_nonneg _ _ h10 hm0
        | exact jAdd_nonneg _ _ h11 hm0
        | exact jAdd_nonneg _ _ h12 hm0

/-- The non-sleep conditional chain preserves the field invariant when
the sample value is good. -/
theorem rowInv_applyNonSleep (name : String) (v : JSVal) (r : Row)
    (hv : GoodVal v) (hr : RowInv r) : RowInv (applyNonSleep name v r) := by
  obtain ⟨h1, h2, h3, h4, h5, h6, h7, h8, h9, h10, h11, h12, h13, h14, h15⟩ := hr
  obtain ⟨qn, hqn, hqn0⟩ := goodVal_number v hv
  obtain ⟨qz, hqz, hqz0⟩ := goodVal_numOrZero v hv
  refine ⟨?_, ?_, ?_, ?_, ?_, ?_, ?_, ?_, ?_, ?_, ?_, ?_, ?_, ?_, ?_⟩ <;>
    simp only [applyNonSleep,
      apply_ite (fun row : Row => row.resting_hr),
      apply_ite (fun row : Row => row.hrv),
      apply_ite (fun row : Row => row.systolic),
      apply_ite (fun row : Row => row.diastolic),
      apply_ite (fun row : Row => row.weight),
      apply_ite (fun row : Row => row.body_fat_percentage),
      apply_ite (fun row : Row => row.glucose),
      apply_ite (fun row : Row => row.sleep_duration_minutes),
      apply_ite (fun row : Row => row.sleep_deep_minutes),
      apply_ite (fun row : Row => row.sleep_rem_minutes),
      apply_ite (fun row : Row => row.sleep_core_minutes),
      apply_ite (fun row : Row => row.sleep_awake_minutes),
      apply_ite (fun row : Row => row.steps),
      apply_ite (fun row : Row => row.active_calories),
      apply_ite (fun row : Row => row.basal_calories),
      ite_self] <;>
    first
      | assumption
      | (split_ifs <;>
          first
            | assumption
            | (rw [hqn]; exact fun h => nomatch h)
            | (rw [hqz]; exact jAdd_nonneg _ _ h13 hqz0)
            | (rw [hqz]; exact jAdd_nonneg _ _ h14 hqz0)
            | (rw [hqz]; exact jAdd_nonneg _ _ h15 hqz0))

/-- The non-sleep conditional chain never touches the row key. -/
theorem applyNonSleep_key (name : String) (v : JSVal) (r : Row) :
    (applyNonSleep name v r).user_id = r.user_id ∧ (applyNonSleep name v r).date = r.date := by
  constructor <;>
    simp only [applyNonSleep,
      apply_ite (fun row : Row => row.user_id),
      apply_ite (fun row : Row => row.date), ite_self]

/-- The summary overwrite never touches the row key. -/
theorem applySummary_key (d : Sample) (r : Row) :
    (applySummary d r).user_id = r.user_id ∧ (applySummary d r).date = r.date :=
  ⟨rfl, rfl⟩

/-- The segment update never touches the row key. -/
theorem segUpdate_key (d : Sample) (m : ℚ) (r : Row) :
    (segUpdate d m r).user_id = r.user_id ∧ (segUpdate d m r).date = r.date := by
  unfold segUpdate
  dsimp only
  split_ifs <;> exact ⟨rfl, rfl⟩

/-- The picked value of a sample is one of its five fallback fields. -/
theorem pickValue_cases (d : Sample) (v : JSVal) (h : pickValue d = some v) :
    v = d.qty ∨ v = d.avg ∨ v = d.value ∨ v = d.min ∨ v = d.max := by
  unfold pickValue at h
  have hch : nvl d.qty (nvl d.avg (nvl d.value (nvl d.min d.max))) = v := by
    rcases hm : nvl d.qty (nvl d.avg (nvl d.value (nvl d.min d.max))) with _ | q | ⟨s, n⟩
    · rw [hm] at h
      simp [nullToNone] at h
    · rw [hm] at h
      exact Option.some.inj h
    · rw [hm] at h
      exact Option.some.inj h
  have core : ∀ a b : JSVal, nvl a b = a ∨ nvl a b = b := by
    intro a b
    cases a <;> simp [nvl]
  rcases core d.qty (nvl d.avg (nvl d.value (nvl d.min d.max))) with h1 | h1
  · exact Or.inl (by rw [← hch, h1])
  rw [h1] at hch
  rcases core d.avg (nvl d.value (nvl d.min d.max)) with h2 | h2
  · exact Or.inr (Or.inl (by rw [← hch, h2]))
  rw [h2] at hch
  rcases core d.value (nvl d.min d.max) with h3 | h3
  · exact Or.inr (Or.inr (Or.inl (by rw [← hch, h3])))
  rw [h3] at hch
  rcases core d.min d.max with h4 | h4
  · exact Or.inr (Or.inr (Or.inr (Or.inl (by rw [← hch, h4]))))
  · exact Or.inr (Or.inr (Or.inr (Or.inr (by rw [← hch, h4]))))

/-- The picked value of a good sample is good. -/
theorem pickValue_good (d : Sample) (v : JSVal) (hd : GoodSample d)
    (h : pickValue d = some v) : GoodVal v := by
  obtain ⟨g1, g2, g3, g4, g5, -, -, -, -, -, -, -, -⟩ := hd
  rcases pickValue_cases d v h with h | h | h | h | h <;> rw [h] <;> assumption

/-- Processing one good sample preserves the summary-object invariant. -/
theorem processSample_stInv (uid name : String) (st : St) (d : Sample)
    (hst : StInv uid st) (hd : GoodSample d) :
    StInv uid (processSample uid name st d) := by
  unfold processSample
  cases hds : dateStrOf d with
  | none => exact hst
  | some ts =>
    dsimp only
    by_cases hsleep : strIncludes name "sleep_analysis" = true
    · rw [if_pos hsleep]
      cases hk : dayKeyOf d with
      | none => exact hst
      | some day =>
        dsimp only
        have hday : day ≠ "" := dayKey_ne_empty d day hd hk
        obtain ⟨hst1, hu, hdate, hrinv⟩ := ensureDay_stInv uid st day hst hday
        by_cases hsum : hasSummaryHours d = true
        · rw [if_pos hsum]
          refine stInv_setRow uid _ day _ hst1 ?_
          obtain ⟨hku, hkd⟩ := applySummary_key d (ensureDay uid st day).2
          exact ⟨hku.trans hu, hkd.trans hdate, hday,
            rowInv_applySummary d _ hd hrinv⟩
        · rw [if_neg hsum]
          cases hm : segMinutes d with
          | none => exact hst1
          | some m =>
            dsimp only
            by_cases hpos : 0 < m
            · rw [if_pos hpos]
              refine stInv_setRow uid _ day _ hst1 ?_
              obtain ⟨hku, hkd⟩ := segUpdate_key d m (ensureDay uid st day).2
              exact ⟨hku.trans hu, hkd.trans hdate, hday,
                rowInv_segUpdate d m _ hpos hrinv⟩
            · rw [if_neg hpos]
              exact hst1
    · rw [if_neg hsleep]
      cases hk : dayKeyOf d with
      | none => exact hst
      | some day =>
        dsimp only
        have hday : day ≠ "" := dayKey_ne_empty d day hd hk
        obtain ⟨hst1, hu, hdate, hrinv⟩ := ensureDay_stInv uid st day hst hday
        cases hp : pickValue d with
        | none => exact hst1
        | some v =>
          dsimp only
          refine stInv_setRow uid _ day _ hst1 ?_
          obtain ⟨hku, hkd⟩ := applyNonSleep_key name v (ensureDay uid st day).2
          exact ⟨hku.trans hu, hkd.trans hdate, hday,
            rowInv_applyNonSleep name v _ (pickValue_good d v hd hp) hrinv⟩

/-- Folding good samples through processSample preserves the invariant. -/
theorem foldl_samples_stInv (uid name : String) (samples : List Sample) (st : St)
    (hst : StInv uid st) (hgood : ∀ d ∈ samples, GoodSample d) :
    StInv uid (samples.foldl (processSample uid name) st) := by
  induction samples generalizing st with
  | nil => exact hst
  | cons d rest ih =>
    exact ih _ (processSample_stInv uid name st d hst (hgood d (List.mem_cons_self _ _)))
      (fun x hx => hgood x (List.mem_cons_of_mem _ hx))

/-- Folding good metrics through processMetric preserves the invariant. -/
theorem foldl_metrics_stInv (uid : String) (metrics : List Metric) (st : St)
    (hst : StInv uid st)
    (hgood : ∀ m ∈ metrics, ∀ d ∈ m.data, GoodSample d) :
    StInv uid (metrics.foldl (processMetric uid) st) := by
  induction metrics generalizing st with
  | nil => exact hst
  | cons m rest ih =>
    exact ih _ (foldl_samples_stInv uid m.name.toLower m.data st hst
      (hgood m (List.mem_cons_self _ _)))
      (fun x hx => hgood x (List.mem_cons_of_mem _ hx))

/-- Sanitizing a row satisfying the in-progress invariant yields the
finalized invariant. -/
theorem sanitize_finalOk (uid : String) (r : Row)
    (h : r.user_id = uid ∧ r.date ≠ "" ∧ RowInv r) : FinalRowOk uid (sanitize r) := by
  obtain ⟨hu, hd, h1, h2, h3, h4, h5, h6, h7, h8, h9, h10, h11, h12, h13, h14, h15⟩ := h
  have key : ∀ x : JNum, NonnegNum x →
      IntNonneg (JNum.num ((round (orZero x) : ℤ) : ℚ)) := by
    intro x hx
    obtain ⟨q, hq, hq0⟩ := hx
    refine ⟨round (orZero x), rfl, ?_⟩
    rw [hq]
    exact round_nonneg_q q hq0
  exact ⟨hu, hd, h1, h2, h3, h4, h5, h6, h7,
    key _ h8, key _ h9, key _ h10, key _ h11, key _ h12, key _ h13, key _ h14, key _ h15⟩

end Ingest

/-- C4 amended. For every payload whose sample values (the qty, avg,
value, min and max fallbacks and the five sleep hour totals) are null or
non-negative finite numbers and whose timestamps render non-empty UTC
dates, every produced record carries the request's user id and a
non-empty date, every point-in-time field is null or finite (never NaN),
and every accumulating field is a non-negative integer. Without that
restriction the invariant fails: see the counterexample, where a
non-numeric string value stores NaN in a point-in-time field. -/
theorem ingest_invariants (uid : String) (metrics : List Ingest.Metric)
    (hgood : ∀ m ∈ metrics, ∀ d ∈ m.data, Ingest.GoodSample d) :
    ∀ r ∈ Ingest.buildRows uid metrics, Ingest.FinalRowOk uid r := by
  intro r hr
  unfold Ingest.buildRows at hr
  rcases List.mem_map.mp hr with ⟨r0, hr0, hs⟩
  rcases List.mem_map.mp hr0 with ⟨p, hp, hsnd⟩
  have hinv := Ingest.foldl_metrics_stInv uid metrics []
    (fun p hp => absurd hp (List.not_mem_nil p)) hgood p hp
  subst hs
  subst hsnd
  have hdate : p.2.date ≠ "" := by
    rw [hinv.2.1]
    exact hinv.2.2.1
  exact Ingest.sanitize_finalOk uid p.2 ⟨hinv.1, hdate, hinv.2.2.2⟩

/-- C4. The claim that every numeric field of a produced record is null
or finite fails: a resting heart rate sample whose qty is the string
"abc" coerces to NaN, which is stored in the finalized row's resting_hr
field untouched by the sanitize step. -/
theorem ingest_nan_counterexample :
    (Ingest.buildRows "u" [Ingest.nanQtyMetric]).map (fun r => r.resting_hr) =
      [Ingest.JNum.nan] := by
  with_unfolding_all decide

/-- C4 amended witness. A good payload with one step sample yields a row
satisfying the finalized invariant. -/
theorem ingest_invariants_witness :
    Ingest.FinalRowOk "u"
      (Ingest.sanitize
        { user_id := "u", date := "2026-01-05", steps := Ingest.JNum.num 250 }) := by
  have hgood : ∀ m ∈ [Ingest.stepsMetric], ∀ d ∈ m.data, Ingest.GoodSample d := by
    intro m hm d hd
    simp only [List.mem_singleton] at hm
    subst hm
    simp only [Ingest.stepsMetric, List.mem_singleton] at hd
    subst hd
    refine ⟨by norm_num [Ingest.GoodVal], by trivial, by trivial, by trivial, by trivial,
      by trivial, by trivial, by trivial, by trivial, by trivial,
      ?_, by trivial, by trivial⟩
    intro u hu
    cases hu
  exact ingest_invariants "u" [Ingest.stepsMetric] hgood _ (by with_unfolding_all decide)

namespace Ingest

/-- setRow preserves the key invariant when the stored row is keyed
consistently. -/
theorem stKeys_setRow (uid : String) (st : St) (day : String) (r : Row)
    (hst : StKeys uid st) (hr : r.user_id = uid ∧ r.date = day) :
    StKeys uid (setRow st day r) := by
  induction st with
  | nil =>
    intro p hp
    simp only [setRow, List.mem_singleton] at hp
    subst hp
    exact hr
  | cons q rest ih =>
    obtain ⟨k, r0⟩ := q
    intro p hp
    by_cases hk : k = day
    · simp only [setRow, if_pos hk] at hp
      rcases List.mem_cons.mp hp with h | h
      · subst h
        exact hr
      · exact hst _ (List.mem_cons_of_mem _ h)
    · simp only [setRow, if_neg hk] at hp
      rcases List.mem_cons.mp hp with h | h
      · subst h
        exact hst _ (List.mem_cons_self _ _)
      · exact ih (fun p hp => hst _ (List.mem_cons_of_mem _ hp)) _ h

/-- ensureDay preserves the key invariant and returns a consistently
keyed row. -/
theorem ensureDay_keys (uid : String) (st : St) (day : String) (hst : StKeys uid st) :
    StKeys uid (ensureDay uid st day).1 ∧
    (ensureDay uid st day).2.user_id = uid ∧ (ensureDay uid st day).2.date = day := by
  unfold ensureDay
  cases hg : getRow st day with
  | some r =>
    have hm := hst _ (getRow_mem st day r hg)
    exact ⟨hst, hm.1, hm.2⟩
  | none =>
    refine ⟨?_, rfl, rfl⟩
    intro p hp
    rcases List.mem_append.mp hp with h | h
    · exact hst _ h
    · simp only [List.mem_singleton] at h
      subst h
      exact ⟨rfl, rfl⟩

/-- Processing any sample preserves the key invariant. -/
theorem processSample_keys (uid name : String) (st : St) (d : Sample)
    (hst : StKeys uid st) : StKeys uid (processSample uid name st d) := by
  unfold processSample
  cases hds : dateStrOf d with
  | none => exact hst
  | some ts =>
    dsimp only
    by_cases hsleep : strIncludes name "sleep_analysis" = true
    · rw [if_pos hsleep]
      cases hk : dayKeyOf d with
      | none => exact hst
      | some day =>
        dsimp only
        obtain ⟨hst1, hu, hdate⟩ := ensureDay_keys uid st day hst
        by_cases hsum : hasSummaryHours d = true
        · rw [if_pos hsum]
          refine stKeys_setRow uid _ day _ hst1 ?_
          obtain ⟨hku, hkd⟩ := applySummary_key d (ensureDay uid st day).2
          exact ⟨hku.trans hu, hkd.trans hdate⟩
        · rw [if_neg hsum]
          cases hm : segMinutes d with
          | none => exact hst1
          | some m =>
            dsimp only
            by_cases hpos : 0 < m
            · rw [if_pos hpos]
              refine stKeys_setRow uid _ day _ hst1 ?_
              obtain ⟨hku, hkd⟩ := segUpdate_key d m (ensureDay uid st day).2
              exact ⟨hku.trans hu, hkd.trans hdate⟩
            · rw [if_neg hpos]
              exact hst1
    · rw [if_neg hsleep]
      cases hk : dayKeyOf d with
      | none => exact hst
      | some day =>
        dsimp only
        obtain ⟨hst1, hu, hdate⟩ := ensureDay_keys uid st day hst
        cases hp : pickValue d with
        | none => exact hst1
        | some v =>
          dsimp only
          refine stKeys_setRow uid _ day _ hst1 ?_
          obtain ⟨hku, hkd⟩ := applyNonSleep_key name v (ensureDay uid st day).2
          exact ⟨hku.trans hu, hkd.trans hdate⟩

/-- Folding any samples preserves the key invariant. -/
theorem foldl_samples_keys (uid name : String) (samples : List Sample) (st : St)
    (hst : StKeys uid st) :
    StKeys uid (samples.foldl (processSample uid name) st) := by
  induction samples generalizing st with
  | nil => exact hst
  | cons d rest ih => exact ih _ (processSample_keys uid name st d hst)

/-- Processing the concrete summary sample stores its converted totals
for 2026-01-05, whatever the prior state holds. -/
theorem processSample_summary (uid : String) (st : St) :
    processSample uid "sleep_analysis" st summarySample =
      setRow (ensureDay uid st "2026-01-05").1 "2026-01-05"
        (applySummary summarySample (ensureDay uid st "2026-01-05").2) := by
  with_unfolding_all rfl

end Ingest

/-- C2. A summary-shape sleep sample does not supersede segment samples
that occur later in the same batch: with the 7.5 hour summary followed by
a one hour deep segment for the same date, the finalized total is 510
minutes and the deep bucket 60, not the claimed 450 and 0. -/
theorem ingest_summary_counterexample :
    (Ingest.buildRows "u" [Ingest.sleepMetric [Ingest.summarySample, Ingest.segDeep60]]).map
      (fun r => (r.date, r.sleep_duration_minutes, r.sleep_deep_minutes)) =
      [("2026-01-05", Ingest.JNum.num 510, Ingest.JNum.num 60)] := by
  with_unfolding_all decide

/-- C2 amended. A summary-shape sleep sample overwrites whatever sleep
totals are accumulated for its date at the point it is processed; only
sleep samples for that date occurring later in the batch can change them
again. In particular, whenever the summary sample with totalSleep = 7.5
is the last sleep sample of the batch for 2026-01-05, the finalized
record for that date holds exactly 450 total sleep minutes and zero in
every stage bucket, regardless of the segments processed before it. -/
theorem ingest_summary_overwrite (pre : List Ingest.Sample) :
    ∃ r, r ∈ Ingest.buildRows "u" [Ingest.sleepMetric (pre ++ [Ingest.summarySample])] ∧
      r.user_id = "u" ∧ r.date = "2026-01-05" ∧
      r.sleep_duration_minutes = Ingest.JNum.num 450 ∧
      r.sleep_deep_minutes = Ingest.JNum.num 0 ∧
      r.sleep_rem_minutes = Ingest.JNum.num 0 ∧
      r.sleep_core_minutes = Ingest.JNum.num 0 ∧
      r.sleep_awake_minutes = Ingest.JNum.num 0 := by
  have hlower : ("sleep_analysis" : String).toLower = "sleep_analysis" := by
    with_unfolding_all decide
  have hbuild : Ingest.buildRows "u" [Ingest.sleepMetric (pre ++ [Ingest.summarySample])] =
      (((pre ++ [Ingest.summarySample]).foldl
        (Ingest.processSample "u" "sleep_analysis") []).map Prod.snd).map Ingest.sanitize := by
    unfold Ingest.buildRows Ingest.processMetric
    rw [List.foldl_cons, List.foldl_nil]
    dsimp only [Ingest.sleepMetric]
    rw [hlower]
  rw [hbuild, List.foldl_append, List.foldl_cons, List.foldl_nil]
  set st1 := pre.foldl (Ingest.processSample "u" "sleep_analysis") [] with hst1
  have hkeys : Ingest.StKeys "u" st1 :=
    Ingest.foldl_samples_keys "u" "sleep_analysis" pre []
      (fun p hp => absurd hp (List.not_mem_nil p))
  rw [Ingest.processSample_summary "u" st1]
  set p := Ingest.ensureDay "u" st1 "2026-01-05" with hp
  obtain ⟨hk1, hku, hkd⟩ := Ingest.ensureDay_keys "u" st1 "2026-01-05" hkeys
  set r' := Ingest.applySummary Ingest.summarySample p.2 with hr'
  have hget : Ingest.getRow (Ingest.setRow p.1 "2026-01-05" r') "2026-01-05" = some r' :=
    Ingest.getRow_setRow p.1 "2026-01-05" r'
  have hmem : ("2026-01-05", r') ∈ Ingest.setRow p.1 "2026-01-05" r' :=
    Ingest.getRow_mem _ _ _ hget
  refine ⟨Ingest.sanitize r', ?_, ?_, ?_, ?_, ?_, ?_, ?_, ?_⟩
  · exact List.mem_map_of_mem _ (List.mem_map_of_mem _ hmem)
  · exact hku
  · exact hkd
  · show Ingest.JNum.num ((round (Ingest.orZero r'.sleep_duration_minutes) : ℤ) : ℚ) =
      Ingest.JNum.num 450
    rw [show r'.sleep_duration_minutes =
      Ingest.JNum.num (Ingest.summaryMinutes Ingest.summarySample.totalSleep) from rfl]
    with_unfolding_all decide
  · show Ingest.JNum.num ((round (Ingest.orZero r'.sleep_deep_minutes) : ℤ) : ℚ) =
      Ingest.JNum.num 0
    rw [show r'.sleep_deep_minutes =
      Ingest.JNum.num (Ingest.summaryMinutes Ingest.summarySample.deep) from rfl]
    with_unfolding_all decide
  · show Ingest.JNum.num ((round (Ingest.orZero r'.sleep_rem_minutes) : ℤ) : ℚ) =
      Ingest.JNum.num 0
    rw [show r'.sleep_rem_minutes =
      Ingest.JNum.num (Ingest.summaryMinutes Ingest.summarySample.rem) from rfl]
    with_unfolding_all decide
  · show Ingest.JNum.num ((round (Ingest.orZero r'.sleep_core_minutes) : ℤ) : ℚ) =
      Ingest.JNum.num 0
    rw [show r'.sleep_core_minutes =
      Ingest.JNum.num (Ingest.summaryMinutes Ingest.summarySample.core) from rfl]
    with_unfolding_all decide
  · show Ingest.JNum.num ((round (Ingest.orZero r'.sleep_awake_minutes) : ℤ) : ℚ) =
      Ingest.JNum.num 0
    rw [show r'.sleep_awake_minutes =
      Ingest.JNum.num (Ingest.summaryMinutes Ingest.summarySample.awake) from rfl]
    with_unfolding_all decide

/-- C2 amended witness. With one deep segment before the summary sample
the finalized totals are exactly the summary's. -/
theorem ingest_summary_overwrite_witness :
    ∃ r, r ∈ Ingest.buildRows "u" [Ingest.sleepMetric ([Ingest.segDeep60] ++ [Ingest.summarySample])] ∧
      r.user_id = "u" ∧ r.date = "2026-01-05" ∧
      r.sleep_duration_minutes = Ingest.JNum.num 450 ∧
      r.sleep_deep_minutes = Ingest.JNum.num 0 ∧
      r.sleep_rem_minutes = Ingest.JNum.num 0 ∧
      r.sleep_core_minutes = Ingest.JNum.num 0 ∧
      r.sleep_awake_minutes = Ingest.JNum.num 0 :=
  ingest_summary_overwrite [Ingest.segDeep60]

namespace Ingest

/-- The segment update adds the duration to the total and to exactly the
bucket selected by the stage mapping, leaving the other buckets
unchanged. -/
theorem segUpdate_stage (d : Sample) (m : ℚ) (r : Row) (bk : Stage)
    (hstage : stageOf d.value = some bk) :
    (segUpdate d m r).sleep_duration_minutes = jAdd r.sleep_duration_minutes (some m) ∧
    bucketOf bk (segUpdate d m r) = jAdd (bucketOf bk r) (some m) ∧
    (∀ b : Stage, b ≠ bk → bucketOf b (segUpdate d m r) = bucketOf b r) := by
  unfold stageOf at hstage
  unfold segUpdate
  dsimp only
  split_ifs at hstage ⊢
  · injection hstage with hstage
    subst hstage
    refine ⟨rfl, rfl, ?_⟩
    intro b hb
    cases b
    · exact absurd rfl hb
    · rfl
    · rfl
    · rfl
  · injection hstage with hstage
    subst hstage
    refine ⟨rfl, rfl, ?_⟩
    intro b hb
    cases b
    · rfl
    · rfl
    · exact absurd rfl hb
    · rfl
  · injection hstage with hstage
    subst hstage
    refine ⟨rfl, rfl, ?_⟩
    intro b hb
    cases b
    · rfl
    · rfl
    · rfl
    · exact absurd rfl hb
  · injection hstage with hstage
    subst hstage
    refine ⟨rfl, rfl, ?_⟩
    intro b hb
    cases b
    · rfl
    · exact absurd rfl hb
    · rfl
    · rfl

end Ingest

/-- C8. A sleep segment with parseable start and end and a positive
duration adds that duration to the day's total sleep minutes and to
exactly the one stage bucket selected by the mapping 0 or "awake" to
awake, 1 or 2 to core, 3 or "Deep" to deep, 4 or "REM" to rem, leaving
the other buckets unchanged and accumulating on whatever the day row
already holds; a segment with non-positive or unparseable duration
contributes nothing beyond row creation. -/
theorem sleep_segment_step (uid name : String) (st : Ingest.St) (d : Ingest.Sample)
    (day : String)
    (hname : strIncludes name "sleep_analysis" = true)
    (hkey : Ingest.dayKeyOf d = some day)
    (hsum : Ingest.hasSummaryHours d = false) :
    (∀ (m : ℚ) (bk : Ingest.Stage), Ingest.segMinutes d = some m → 0 < m →
      Ingest.stageOf d.value = some bk →
      ∃ r0 r1 : Ingest.Row,
        (Ingest.getRow st day = some r0 ∨
          (Ingest.getRow st day = none ∧ r0 = Ingest.newRow uid day)) ∧
        Ingest.getRow (Ingest.processSample uid name st d) day = some r1 ∧
        r1.sleep_duration_minutes = Ingest.jAdd r0.sleep_duration_minutes (some m) ∧
        Ingest.bucketOf bk r1 = Ingest.jAdd (Ingest.bucketOf bk r0) (some m) ∧
        (∀ b : Ingest.Stage, b ≠ bk → Ingest.bucketOf b r1 = Ingest.bucketOf b r0)) ∧
    (∀ m : ℚ, Ingest.segMinutes d = some m → m ≤ 0 →
      Ingest.processSample uid name st d = (Ingest.ensureDay uid st day).1) ∧
    (Ingest.segMinutes d = none →
      Ingest.processSample uid name st d = (Ingest.ensureDay uid st day).1) := by
  have hds : ∃ ts, Ingest.dateStrOf d = some ts := by
    unfold Ingest.dayKeyOf at hkey
    cases h : Ingest.dateStrOf d with
    | none => rw [h] at hkey; cases hkey
    | some ts => exact ⟨ts, rfl⟩
  obtain ⟨ts, hds⟩ := hds
  have hsum2 : ¬ (Ingest.hasSummaryHours d = true) := by rw [hsum]; exact Bool.false_ne_true
  refine ⟨?_, ?_, ?_⟩
  · intro m bk hm hpos hstage
    unfold Ingest.processSample
    rw [hds]
    dsimp only
    rw [if_pos hname, hkey]
    dsimp only
    rw [if_neg hsum2, hm]
    dsimp only
    rw [if_pos hpos]
    obtain ⟨hdur, hbk, hothers⟩ :=
      Ingest.segUpdate_stage d m (Ingest.ensureDay uid st day).2 bk hstage
    cases hg : Ingest.getRow st day with
    | some r0 =>
      have he : Ingest.ensureDay uid st day = (st, r0) := by
        unfold Ingest.ensureDay
        rw [hg]
      refine ⟨r0, Ingest.segUpdate d m r0, Or.inl rfl, ?_, ?_, ?_, ?_⟩
      · rw [he]
        exact Ingest.getRow_setRow st day _
      · rw [he] at hdur
        exact hdur
      · rw [he] at hbk
        exact hbk
      · rw [he] at hothers
        exact hothers
    | none =>
      have he : Ingest.ensureDay uid st day =
          (st ++ [(day, Ingest.newRow uid day)], Ingest.newRow uid day) := by
        unfold Ingest.ensureDay
        rw [hg]
      refine ⟨Ingest.newRow uid day, Ingest.segUpdate d m (Ingest.newRow uid day),
        Or.inr ⟨rfl, rfl⟩, ?_, ?_, ?_, ?_⟩
      · rw [he]
        exact Ingest.getRow_setRow _ day _
      · rw [he] at hdur
        exact hdur
      · rw [he] at hbk
        exact hbk
      · rw [he] at hothers
        exact hothers
  · intro m hm hnonpos
    unfold Ingest.processSample
    rw [hds]
    dsimp only
    rw [if_pos hname, hkey]
    dsimp only
    rw [if_neg hsum2, hm]
    dsimp only
    rw [if_neg (not_lt.mpr hnonpos)]
  · intro hm
    unfold Ingest.processSample
    rw [hds]
    dsimp only
    rw [if_pos hname, hkey]
    dsimp only
    rw [if_neg hsum2, hm]

/-- C8 witness. The one hour deep segment lands in the deep bucket on an
empty state, and the eight hour night of the spec splits into exactly 480
total, 60 deep, 120 rem, 240 core and 60 awake minutes. -/
theorem sleep_segment_step_witness :
    (∃ r0 r1 : Ingest.Row,
      (Ingest.getRow [] "2026-01-05" = some r0 ∨
        (Ingest.getRow [] "2026-01-05" = none ∧ r0 = Ingest.newRow "u" "2026-01-05")) ∧
      Ingest.getRow (Ingest.processSample "u" "sleep_analysis" [] Ingest.segDeep60)
        "2026-01-05" = some r1 ∧
      r1.sleep_duration_minutes = Ingest.jAdd r0.sleep_duration_minutes (some 60) ∧
      Ingest.bucketOf Ingest.Stage.deep r1 =
        Ingest.jAdd (Ingest.bucketOf Ingest.Stage.deep r0) (some 60) ∧
      (∀ b : Ingest.Stage, b ≠ Ingest.Stage.deep →
        Ingest.bucketOf b r1 = Ingest.bucketOf b r0)) ∧
    (Ingest.buildRows "u" [Ingest.sleepMetric Ingest.eightHourNight]).map
      (fun r => (r.sleep_duration_minutes, r.sleep_deep_minutes, r.sleep_rem_minutes,
        r.sleep_core_minutes, r.sleep_awake_minutes)) =
      [(Ingest.JNum.num 480, Ingest.JNum.num 60, Ingest.JNum.num 120,
        Ingest.JNum.num 240, Ingest.JNum.num 60)] := by
  constructor
  · exact (sleep_segment_step "u" "sleep_analysis" [] Ingest.segDeep60 "2026-01-05"
      (by with_unfolding_all decide) (by with_unfolding_all decide)
      (by with_unfolding_all decide)).1 60 Ingest.Stage.deep
      (by with_unfolding_all decide) (by norm_num) (by with_unfolding_all decide)
  · with_unfolding_all decide

namespace WeeklyCalc

/-- The comparison fields and HRV day count of the weekly core, written
out against the named window aggregates. -/
theorem weeklyCore_changes (uid endStr : String) (goal : ℚ)
    (rows prows : List DailyRow) :
    (weeklyCore uid endStr goal rows prows).hrv_change_pct =
      (if (avg (hrvVals (currRows (JsDate.addDaysUTC endStr (-6)) endStr rows))).isSome &&
          (prevHrvAvg prows).isSome then
        pctChange (avg (hrvVals (currRows (JsDate.addDaysUTC endStr (-6)) endStr rows)))
          (prevHrvAvg prows)
      else none).map (fun p => roundDigits p 6) ∧
    (weeklyCore uid endStr goal rows prows).resting_hr_change_bpm =
      (match avg (rhrVals (currRows (JsDate.addDaysUTC endStr (-6)) endStr rows)),
          prevRhrAvg prows with
      | some a, some b => some (a - b)
      | _, _ => none).map (fun p => roundDigits p 6) ∧
    (weeklyCore uid endStr goal rows prows).days_with_hrv =
      (hrvVals (currRows (JsDate.addDaysUTC endStr (-6)) endStr rows)).length := by
  refine ⟨?_, ?_, ?_⟩ <;> simp only [weeklyCore]

/-- The validation guards pass on the concrete example input. -/
theorem weekly_example_guard :
    buildWeeklyReport "u" "2026-01-07" 450 [c6CurRow] [c6PrevRow] =
      some (weeklyCore "u" "2026-01-07" 450 [c6CurRow] [c6PrevRow]) := by
  have hv : isValidYmd "2026-01-07" = true := by decide
  simp [buildWeeklyReport, hv]

end WeeklyCalc

/-- C6. The weekly calculator has no minimum-days comparison gate: with a
single populated HRV day in the current window (50 ms) and a single one
in the previous window (60 ms), fewer than four in each, the report still
carries a non-null hrv_change_pct of -16.666667 percent. -/
theorem weekly_gate_counterexample :
    WeeklyCalc.buildWeeklyReport "u" "2026-01-07" 450 [c6CurRow] [c6PrevRow] =
      some (WeeklyCalc.weeklyCore "u" "2026-01-07" 450 [c6CurRow] [c6PrevRow]) ∧
    (WeeklyCalc.weeklyCore "u" "2026-01-07" 450 [c6CurRow] [c6PrevRow]).days_with_hrv = 1 ∧
    ([c6PrevRow].filter (fun r => decide (0 < r.hrv.getD 0))).length = 1 ∧
    (∃ q : ℚ,
      (WeeklyCalc.weeklyCore "u" "2026-01-07" 450 [c6CurRow] [c6PrevRow]).hrv_change_pct =
        some q ∧ q.num = -16666667 ∧ q.den = 1000000) := by
  refine ⟨WeeklyCalc.weekly_example_guard, ?_, ?_, ?_⟩
  · with_unfolding_all decide
  · with_unfolding_all decide
  · have h1 : JsDate.addDaysUTC "2026-01-07" (-6) = "2026-01-01" := by decide
    have h2 : WeeklyCalc.avg (WeeklyCalc.hrvVals
        (WeeklyCalc.currRows "2026-01-01" "2026-01-07" [c6CurRow])) = some 50 := by
      with_unfolding_all decide
    have h3 : WeeklyCalc.prevHrvAvg [c6PrevRow] = some 60 := by
      with_unfolding_all decide
    have h4 : WeeklyCalc.pctChange (some 50) (some 60) = some (Rat.divInt (-50) 3) := by
      with_unfolding_all decide
    refine ⟨WeeklyCalc.roundDigits (Rat.divInt (-50) 3) 6, ?_, ?_, ?_⟩
    · rw [(WeeklyCalc.weeklyCore_changes "u" "2026-01-07" 450 [c6CurRow] [c6PrevRow]).1,
        h1, h2, h3]
      simp [h4]
    · with_unfolding_all decide
    · with_unfolding_all decide

/-- C6 amended. Whenever the weekly calculator returns a report, the HRV
percent change is computed exactly when both window averages exist (at
least one populated day each) and the previous average is non-zero, and
the resting HR delta exactly when both averages exist; populated-day
counts beyond one are never consulted. -/
theorem weekly_no_min_days_gate (uid endStr : String) (goal : ℚ)
    (rows prows : List DailyRow) (rep : WeeklyCalc.Report)
    (h : WeeklyCalc.buildWeeklyReport uid endStr goal rows prows = some rep) :
    rep.hrv_change_pct =
      (if (WeeklyCalc.avg (WeeklyCalc.hrvVals
            (WeeklyCalc.currRows (JsDate.addDaysUTC endStr (-6)) endStr rows))).isSome &&
          (WeeklyCalc.prevHrvAvg prows).isSome then
        WeeklyCalc.pctChange
          (WeeklyCalc.avg (WeeklyCalc.hrvVals
            (WeeklyCalc.currRows (JsDate.addDaysUTC endStr (-6)) endStr rows)))
          (WeeklyCalc.prevHrvAvg prows)
      else none).map (fun p => WeeklyCalc.roundDigits p 6) ∧
    rep.resting_hr_change_bpm =
      (match WeeklyCalc.avg (WeeklyCalc.rhrVals
          (WeeklyCalc.currRows (JsDate.addDaysUTC endStr (-6)) endStr rows)),
          WeeklyCalc.prevRhrAvg prows with
      | some a, some b => some (a - b)
      | _, _ => none).map (fun p => WeeklyCalc.roundDigits p 6) := by
  unfold WeeklyCalc.buildWeeklyReport at h
  split_ifs at h
  injection h with h
  subst h
  exact ⟨(WeeklyCalc.weeklyCore_changes uid endStr goal rows prows).1,
    (WeeklyCalc.weeklyCore_changes uid endStr goal rows prows).2.1⟩

/-- C6 amended witness. The field equations hold on the one-day example
report. -/
theorem weekly_no_min_days_gate_witness :
    (WeeklyCalc.weeklyCore "u" "2026-01-07" 450 [c6CurRow] [c6PrevRow]).hrv_change_pct =
      (if (WeeklyCalc.avg (WeeklyCalc.hrvVals
            (WeeklyCalc.currRows (JsDate.addDaysUTC "2026-01-07" (-6)) "2026-01-07"
              [c6CurRow]))).isSome &&
          (WeeklyCalc.prevHrvAvg [c6PrevRow]).isSome then
        WeeklyCalc.pctChange
          (WeeklyCalc.avg (WeeklyCalc.hrvVals
            (WeeklyCalc.currRows (JsDate.addDaysUTC "2026-01-07" (-6)) "2026-01-07"
              [c6CurRow])))
          (WeeklyCalc.prevHrvAvg [c6PrevRow])
      else none).map (fun p => WeeklyCalc.roundDigits p 6) ∧
    (WeeklyCalc.weeklyCore "u" "2026-01-07" 450 [c6CurRow] [c6PrevRow]).resting_hr_change_bpm =
      (match WeeklyCalc.avg (WeeklyCalc.rhrVals
          (WeeklyCalc.currRows (JsDate.addDaysUTC "2026-01-07" (-6)) "2026-01-07" [c6CurRow])),
          WeeklyCalc.prevRhrAvg [c6PrevRow] with
      | some a, some b => some (a - b)
      | _, _ => none).map (fun p => WeeklyCalc.roundDigits p 6) :=
  weekly_no_min_days_gate "u" "2026-01-07" 450 [c6CurRow] [c6PrevRow]
    (WeeklyCalc.weeklyCore "u" "2026-01-07" 450 [c6CurRow] [c6PrevRow])
    WeeklyCalc.weekly_example_guard

namespace WeeklyOld

/-- The status of the older weekly core is partial exactly when its own
missing list has at least two entries. -/
theorem weeklyCoreV_status (c0 : DailyRow × ℤ) (crest : List (DailyRow × ℤ))
    (endDate : Option String) (goal : ℚ) :
    (weeklyCoreV c0 crest endDate goal).status =
      if 2 ≤ (weeklyCoreV c0 crest endDate goal).missing.length then "partial"
      else "ok" := by
  simp only [weeklyCoreV]

end WeeklyOld

/-- C7. The older weekly calculator's status does not follow synced-day
counts: a current window with only two populated days, each carrying
sleep, HRV and resting HR, yields status ok, not the claimed partial. -/
theorem weekly_status_counterexample :
    (WeeklyOld.buildWeeklyReportV [c7Row1, c7Row2] (some "2026-01-07") 450).status = "ok" ∧
    (WeeklyOld.buildWeeklyReportV [c7Row1, c7Row2] (some "2026-01-07") 450).period =
      some ("2026-01-01", "2026-01-07", 2) ∧
    (WeeklyOld.buildWeeklyReportV [c7Row1, c7Row2] (some "2026-01-07") 450).missing = [] := by
  refine ⟨?_, ?_, ?_⟩ <;> with_unfolding_all decide

/-- C7 amended. The report status is awaiting_sync exactly when no input
row has a parseable date; otherwise it is partial when at least two of
the three metrics sleep, hrv and resting_hr have no usable data in the
current window (the report's missing list) and ok otherwise; populated
day counts play no further role. -/
theorem weekly_status_rule (rows : List DailyRow) (endDate : Option String) (goal : ℚ) :
    (WeeklyOld.cleanedOf rows = [] →
      (WeeklyOld.buildWeeklyReportV rows endDate goal).status = "awaiting_sync") ∧
    (∀ (c0 : DailyRow × ℤ) (crest : List (DailyRow × ℤ)),
      WeeklyOld.cleanedOf rows = c0 :: crest →
      (WeeklyOld.buildWeeklyReportV rows endDate goal).status =
        if 2 ≤ (WeeklyOld.buildWeeklyReportV rows endDate goal).missing.length then "partial"
        else "ok") := by
  constructor
  · intro h
    unfold WeeklyOld.buildWeeklyReportV
    rw [h]
    rfl
  · intro c0 crest h
    unfold WeeklyOld.buildWeeklyReportV
    rw [h]
    exact WeeklyOld.weeklyCoreV_status c0 crest endDate _

/-- C7 amended witness. On the two fully populated days the missing list
is empty, so the status rule gives ok. -/
theorem weekly_status_rule_witness :
    (WeeklyOld.buildWeeklyReportV [c7Row1, c7Row2] (some "2026-01-07") 450).status =
      if 2 ≤ (WeeklyOld.buildWeeklyReportV [c7Row1, c7Row2] (some "2026-01-07") 450).missing.length
      then "partial" else "ok" :=
  (weekly_status_rule [c7Row1, c7Row2] (some "2026-01-07") 450).2
    ((c7Row1, 20459), (c7Row2, 20460)).1 [((c7Row1, 20459), (c7Row2, 20460)).2]
    (by with_unfolding_all decide)
